import Mathlib

/-!
# Verification of the RMA (Return Merchandise Authorization) workflow engine

Shallow embedding of `src/rma/manager.py` (class `RMAManager`) and of the
shipping route of `src/rma/routes.py`.  The sqlite database is modelled as a
record of lists of rows; each manager method becomes a function
`DB → Except String (result × DB)` (a raised `ValueError` before `commit`
becomes `.error msg`, leaving the caller's database untouched, which matches
the route layer never committing on failure).  Timestamps are integers
(seconds); `CURRENT_TIMESTAMP` / `datetime.now()` become an explicit `now`
parameter and `datetime.now().strftime("%Y%m%d")` an explicit `today`
parameter.  `timedelta(days=30)` is `30 * 86400` seconds.
-/

namespace RMA

/-- Row of the `product` table (columns used by the RMA engine). -/
structure Product where
  id : Nat
  stock : Int
  price_cents : Int
  deriving Repr, DecidableEq

/-- Row of the `sale` table (columns used by the RMA engine).
`sale_time` is optional: replacement sales are inserted without it. -/
structure Sale where
  id : Nat
  user_id : Nat
  status : String
  total_cents : Int
  sale_time : Option Int
  deriving Repr, DecidableEq

/-- Row of the `sale_item` table. -/
structure SaleItem where
  id : Nat
  sale_id : Nat
  product_id : Nat
  quantity : Int
  price_cents : Int
  deriving Repr, DecidableEq

/-- Row of the `rma_items` table. -/
structure RmaItem where
  rma_id : Nat
  sale_item_id : Nat
  product_id : Nat
  quantity : Int
  reason : String
  deriving Repr, DecidableEq

/-- Row of the `rma_requests` table. -/
structure RmaRequest where
  id : Nat
  rma_number : Option String
  sale_id : Nat
  user_id : Nat
  reason : String
  description : String
  photo_urls : List String
  status : String
  disposition : Option String
  validation_notes : Option String
  validated_by : Option String
  validated_at : Option Int
  is_eligible : Option Bool
  warranty_valid : Option Bool
  purchase_date_valid : Option Bool
  shipping_carrier : Option String
  tracking_number : Option String
  shipped_at : Option Int
  received_at : Option Int
  inspection_result : Option String
  inspection_notes : Option String
  inspected_by : Option String
  inspected_at : Option Int
  disposition_reason : Option String
  disposition_by : Option String
  disposition_at : Option Int
  refund_amount_cents : Option Int
  created_at : Int
  closed_at : Option Int
  deriving Repr, DecidableEq

/-- Row of the append-only `rma_activity_log` table.  `new_status` is
optional because `_notify_customer` logs entries with `new_status=None`. -/
structure ActivityLogEntry where
  rma_id : Nat
  action : String
  old_status : Option String
  new_status : Option String
  actor : String
  notes : String
  metadata : List (String × String)
  deriving Repr, DecidableEq

/-- Row of the `notifications` table as inserted by
`NotificationService.create_rma_status_notification` (the message/title
templating of `notifications.py` is content only and is not modelled). -/
structure RmaNotification where
  user_id : Nat
  rma_id : Nat
  rma_number : Option String
  old_status : Option String
  new_status : String
  disposition : Option String
  deriving Repr, DecidableEq

/-- Row of the `refunds` table. -/
structure Refund where
  id : Nat
  rma_id : Nat
  sale_id : Nat
  amount_cents : Int
  method : String
  status : String
  reference : String
  error_message : String
  processed_at : Option Int
  completed_at : Option Int
  deriving Repr, DecidableEq

/-- Row of the `rma_metrics` table (one row per calendar date). -/
structure MetricRow where
  metric_date : String
  total_requests : Int
  completed_requests : Int
  deriving Repr, DecidableEq

/-- The database state.  Lists hold the newest row first (inserts cons at the
head); the `next_*` counters model sqlite's AUTOINCREMENT row ids. -/
structure DB where
  products : List Product
  sales : List Sale
  sale_items : List SaleItem
  rma_requests : List RmaRequest
  rma_items : List RmaItem
  refunds : List Refund
  activity_log : List ActivityLogEntry
  notifications : List RmaNotification
  rma_metrics : List MetricRow
  next_sale_id : Nat
  next_sale_item_id : Nat
  next_rma_id : Nat
  next_refund_id : Nat
  deriving Repr, DecidableEq

/-- Python truthiness of an optional string: `None` and `""` are falsy. -/
def optStrFalsy : Option String → Bool
  | none => true
  | some s => s == ""

/-- Python `f"{x}"` rendering of a nullable string (`None` prints as "None"). -/
def pyStr : Option String → String
  | none => "None"
  | some s => s

/-- Rendering of `f"${cents/100:.2f}"` for the note strings (approximation of
Python float formatting; no theorem depends on the rendered text). -/
def fmtCents (cents : Int) : String :=
  toString (cents / 100) ++ "." ++
    (let r := (cents % 100).toNat
     (if r < 10 then "0" else "") ++ toString r)

/-- `SELECT ... FROM product WHERE id = ?` (first matching row). -/
def productByIdL (ps : List Product) (pid : Nat) : Option Product :=
  ps.find? (fun p => p.id == pid)

def productById (db : DB) (pid : Nat) : Option Product :=
  productByIdL db.products pid

/-- The stock of product `pid`, 0 when the row is absent. -/
def stockOfL (ps : List Product) (pid : Nat) : Int :=
  match productByIdL ps pid with
  | some p => p.stock
  | none => 0

def stockOf (db : DB) (pid : Nat) : Int :=
  stockOfL db.products pid

/-- `SELECT ... FROM sale WHERE id = ?`. -/
def saleById (db : DB) (sid : Nat) : Option Sale :=
  db.sales.find? (fun s => s.id == sid)

/-- `SELECT * FROM rma_requests WHERE id = ?`. -/
def rmaById (db : DB) (rid : Nat) : Option RmaRequest :=
  db.rma_requests.find? (fun r => r.id == rid)

/-- `SELECT * FROM refunds WHERE id = ?`. -/
def refundById (db : DB) (fid : Nat) : Option Refund :=
  db.refunds.find? (fun f => f.id == fid)

/-- `SELECT id FROM refunds WHERE rma_id = ?`. -/
def refundByRmaId (db : DB) (rid : Nat) : Option Refund :=
  db.refunds.find? (fun f => f.rma_id == rid)

/-- `SELECT product_id, quantity FROM rma_items WHERE rma_id = ?`. -/
def itemsOf (db : DB) (rid : Nat) : List RmaItem :=
  db.rma_items.filter (fun it => it.rma_id == rid)

/-- The non-terminal-RMA lookup of `submit_rma_request`:
`SELECT ... FROM rma_requests WHERE sale_id = ? AND status NOT IN
('REJECTED', 'CANCELLED', 'COMPLETED')`. -/
def activeRmaFor (db : DB) (sid : Nat) : Option RmaRequest :=
  db.rma_requests.find? (fun r =>
    r.sale_id == sid &&
      !(r.status == "REJECTED" || r.status == "CANCELLED" || r.status == "COMPLETED"))

/-- `UPDATE product SET ... WHERE id = ?` restricted to a stock delta. -/
def bumpStock (ps : List Product) (pid : Nat) (d : Int) : List Product :=
  ps.map (fun p => if p.id == pid then { p with stock := p.stock + d } else p)

/-- `UPDATE rma_requests SET ... WHERE id = ?`. -/
def updateRmasL (l : List RmaRequest) (i : Nat) (f : RmaRequest → RmaRequest) :
    List RmaRequest :=
  l.map (fun r => if r.id == i then f r else r)

def updateRmas (db : DB) (i : Nat) (f : RmaRequest → RmaRequest) : DB :=
  { db with rma_requests := updateRmasL db.rma_requests i f }

/-- `UPDATE sale SET ... WHERE id = ?`. -/
def updateSales (db : DB) (i : Nat) (f : Sale → Sale) : DB :=
  { db with sales := db.sales.map (fun s => if s.id == i then f s else s) }

/-- `UPDATE refunds SET ... WHERE id = ?`. -/
def updateRefunds (db : DB) (i : Nat) (f : Refund → Refund) : DB :=
  { db with refunds := db.refunds.map (fun f' => if f'.id == i then f f' else f') }

/-- Status values of `_log_activity` that trigger a customer notification. -/
def notifyStatuses : List String :=
  ["SUBMITTED", "APPROVED", "REJECTED", "RECEIVED",
   "INSPECTING", "INSPECTED", "DISPOSITION", "PROCESSING", "COMPLETED", "CANCELLED"]

/-- The notification rows that `_log_activity` inserts for a given transition
(`[]` or a single row).  Mirrors: the RMA must exist, `new_status` must be a
non-`None` value different from `old_status` and in the allow-list. -/
def notificationsFor (db : DB) (rma_id : Nat) (old_status new_status : Option String) :
    List RmaNotification :=
  match rmaById db rma_id with
  | none => []
  | some rma =>
    match new_status with
    | none => []
    | some ns =>
      if (some ns != old_status) && notifyStatuses.contains ns then
        [{ user_id := rma.user_id, rma_id := rma_id, rma_number := rma.rma_number,
           old_status := old_status, new_status := ns, disposition := rma.disposition }]
      else []

/-- `RMAManager._log_activity`: append one audit row, then (best-effort)
insert a customer notification for significant status changes. -/
def logActivity (db : DB) (rma_id : Nat) (action : String)
    (old_status new_status : Option String) (actor notes : String)
    (metadata : List (String × String) := []) : DB :=
  { db with
    activity_log :=
      { rma_id := rma_id, action := action, old_status := old_status,
        new_status := new_status, actor := actor, notes := notes,
        metadata := metadata } :: db.activity_log,
    notifications := notificationsFor db rma_id old_status new_status ++ db.notifications }

/-- `RMAManager._notify_customer`: records a CUSTOMER_NOTIFIED audit row (the
message-template table of the Python code is content only). -/
def notifyCustomer (db : DB) (rma_id : Nat) (notification_type : String)
    (details : String) : DB :=
  logActivity db rma_id "CUSTOMER_NOTIFIED" none none "system"
    ("Notification sent: " ++ notification_type)
    [("notification_type", notification_type), ("message", details)]


/-- One element of the `items` argument of `submit_rma_request`. -/
structure ItemInput where
  sale_item_id : Nat
  product_id : Nat
  quantity : Int
  reason : String
  deriving Repr, DecidableEq

/-- The 30-day warranty window of `_check_warranty` (`timedelta(days=30)`),
in seconds. -/
def warrantyWindow : Int := 30 * 86400

/-- `RMAManager._check_warranty`: the sale must exist and
`datetime.now() < sale_time + timedelta(days=30)` (strict).  A sale row
without a `sale_time` is treated as out of warranty (the Python code would
raise on `fromisoformat(None)`; no claim reaches that case). -/
def checkWarranty (db : DB) (sale_id : Nat) (now : Int) : Bool :=
  match saleById db sale_id with
  | none => false
  | some sale =>
    match sale.sale_time with
    | none => false
    | some t => decide (now < t + warrantyWindow)

/-- `RMAManager._check_purchase_date`: the sale must exist and
`sale_time < datetime.now()` (strict). -/
def checkPurchaseDate (db : DB) (sale_id : Nat) (now : Int) : Bool :=
  match saleById db sale_id with
  | none => false
  | some sale =>
    match sale.sale_time with
    | none => false
    | some t => decide (t < now)

/-- Zero-padding of `f"{n:04d}"`. -/
def pad4 (n : Nat) : String :=
  (if n < 10 then "000" else if n < 100 then "00" else if n < 1000 then "0" else "")
    ++ toString n

/-- `RMAManager._generate_rma_number`: count the RMA numbers issued today
(`rma_number LIKE 'RMA-{today}-%'`; NULL never matches LIKE) and append the
next sequence number. -/
def generateRmaNumber (db : DB) (today : String) : String :=
  let count := (db.rma_requests.filter (fun r =>
    match r.rma_number with
    | some num => ("RMA-" ++ today ++ "-").isPrefixOf num
    | none => false)).length
  "RMA-" ++ today ++ "-" ++ pad4 (count + 1)

/-- The restore loop of `_adjust_inventory_for_disposition`:
`UPDATE product SET stock = stock + qty WHERE id = pid` per RMA item. -/
def restoreItems (ps : List Product) (items : List RmaItem) : List Product :=
  items.foldl (fun acc it => bumpStock acc it.product_id it.quantity) ps

/-- `RMAManager._adjust_inventory_for_disposition`: REFUND and STORE_CREDIT
restore the items' stock; REPLACEMENT, REPAIR and REJECT leave stock
untouched.  Returns the updated state and the audit note. -/
def adjustInventory (db : DB) (rma_id : Nat) (disposition : Option String) :
    DB × String :=
  let rma_items := itemsOf db rma_id
  if disposition == some "REFUND" || disposition == some "STORE_CREDIT" then
    ({ db with products := restoreItems db.products rma_items },
      "Inventory restored (items returned and accepted)")
  else if disposition == some "REPLACEMENT" then
    (db, "Inventory not restored (defective item, replacement will decrease stock)")
  else if disposition == some "REPAIR" then
    (db, "Inventory not restored (item under repair, unavailable for sale)")
  else if disposition == some "REJECT" then
    (db, "No inventory change (return rejected, customer keeps item)")
  else
    (db, "No inventory adjustment")

/-- `RMAManager.submit_rma_request` (Step 1).  Returns the new RMA id. -/
def submit_rma_request (db : DB) (sale_id user_id : Nat) (reason : String)
    (items : List ItemInput) (description : String) (photo_urls : List String)
    (now : Int) : Except String (Nat × DB) :=
  match db.sales.find? (fun s => s.id == sale_id && s.user_id == user_id) with
  | none => .error "Sale not found or does not belong to user"
  | some sale =>
    if sale.status != "COMPLETED" then
      .error ("Cannot return a sale with status: " ++ sale.status)
    else
      match activeRmaFor db sale_id with
      | some existing =>
        .error ("An active RMA already exists for this sale: " ++ pyStr existing.rma_number)
      | none =>
        let rid := db.next_rma_id
        let newRma : RmaRequest :=
          { id := rid, rma_number := none, sale_id := sale_id, user_id := user_id,
            reason := reason, description := description, photo_urls := photo_urls,
            status := "SUBMITTED", disposition := none, validation_notes := none,
            validated_by := none, validated_at := none, is_eligible := none,
            warranty_valid := none, purchase_date_valid := none,
            shipping_carrier := none, tracking_number := none, shipped_at := none,
            received_at := none, inspection_result := none, inspection_notes := none,
            inspected_by := none, inspected_at := none, disposition_reason := none,
            disposition_by := none, disposition_at := none, refund_amount_cents := none,
            created_at := now, closed_at := none }
        let newItems := items.map (fun it =>
          ({ rma_id := rid, sale_item_id := it.sale_item_id, product_id := it.product_id,
             quantity := it.quantity, reason := it.reason } : RmaItem))
        let db1 := { db with rma_requests := newRma :: db.rma_requests,
                             rma_items := newItems ++ db.rma_items,
                             next_rma_id := rid + 1 }
        let db2 := logActivity db1 rid "SUBMITTED" none (some "SUBMITTED") "customer"
          "RMA request submitted by customer"
        .ok (rid, db2)

/-- The row update of `validate_rma_request`'s UPDATE statement (covering
both SQL branches: with and without an `rma_number` to set). -/
def validateUpd (new_status validation_notes validated_by : String) (now : Int)
    (is_eligible warranty_valid purchase_date_valid : Bool)
    (rma_number_to_set : Option String) (r : RmaRequest) : RmaRequest :=
  { r with status := new_status, validation_notes := some validation_notes,
           validated_by := some validated_by, validated_at := some now,
           is_eligible := some is_eligible, warranty_valid := some warranty_valid,
           purchase_date_valid := some purchase_date_valid,
           rma_number := match rma_number_to_set with
                         | some n => some n
                         | none => r.rma_number }

/-- `RMAManager.validate_rma_request` (Step 2).  Returns `True` iff the RMA
was approved. -/
def validate_rma_request (db : DB) (rma_id : Nat) (validated_by : String)
    (approve : Bool) (validation_notes : String)
    (check_warranty check_purchase_date : Bool) (now : Int) (today : String) :
    Except String (Bool × DB) :=
  match rmaById db rma_id with
  | none => .error ("RMA " ++ toString rma_id ++ " not found")
  | some rma =>
    if rma.status != "SUBMITTED" then
      .error ("RMA must be in SUBMITTED status to validate (current: " ++ rma.status ++ ")")
    else
      let warranty_valid := if check_warranty then checkWarranty db rma.sale_id now else true
      let purchase_date_valid :=
        if check_purchase_date then checkPurchaseDate db rma.sale_id now else true
      let is_eligible := warranty_valid && purchase_date_valid
      let new_status := if approve && is_eligible then "APPROVED" else "REJECTED"
      let rma_number_to_set : Option String :=
        if new_status == "APPROVED" && optStrFalsy rma.rma_number then
          some (generateRmaNumber db today)
        else none
      let db1 := updateRmas db rma_id
        (validateUpd new_status validation_notes validated_by now is_eligible
          warranty_valid purchase_date_valid rma_number_to_set)
      let action_note := "Validated by " ++ validated_by ++ ": " ++
        (if approve then "Approved" else "Rejected") ++ ". " ++ validation_notes
      let note := match rma_number_to_set with
        | some n => action_note ++ " | RMA#: " ++ n
        | none => action_note
      let db2 := logActivity db1 rma_id "VALIDATED" (some "SUBMITTED") (some new_status)
        validated_by note
      .ok (approve && is_eligible, db2)

/-- `RMAManager.update_shipping_info` (Step 3). -/
def update_shipping_info (db : DB) (rma_id : Nat) (carrier tracking_number actor : String)
    (now : Int) : Except String DB :=
  match rmaById db rma_id with
  | none => .error ("RMA " ++ toString rma_id ++ " not found")
  | some rma =>
    if !(rma.status == "APPROVED" || rma.status == "SHIPPING") then
      .error ("RMA must be APPROVED to update shipping (current: " ++ rma.status ++ ")")
    else
      let db1 := updateRmas db rma_id (fun r =>
        { r with status := "SHIPPING", shipping_carrier := some carrier,
                 tracking_number := some tracking_number, shipped_at := some now })
      .ok (logActivity db1 rma_id "SHIPPING_UPDATED" (some rma.status) (some "SHIPPING")
        actor ("Tracking: " ++ carrier ++ " " ++ tracking_number))

/-- `RMAManager.mark_received` (Step 3). -/
def mark_received (db : DB) (rma_id : Nat) (actor : String) (now : Int) :
    Except String DB :=
  match rmaById db rma_id with
  | none => .error ("RMA " ++ toString rma_id ++ " not found")
  | some rma =>
    if rma.status != "SHIPPING" then
      .error ("RMA must be SHIPPING to mark received (current: " ++ rma.status ++ ")")
    else
      let db1 := updateRmas db rma_id (fun r =>
        { r with status := "RECEIVED", received_at := some now })
      .ok (logActivity db1 rma_id "RECEIVED" (some "SHIPPING") (some "RECEIVED") actor
        "Item received at warehouse")

/-- `RMAManager.start_inspection` (Step 4). -/
def start_inspection (db : DB) (rma_id : Nat) (inspected_by : String) :
    Except String DB :=
  match rmaById db rma_id with
  | none => .error ("RMA " ++ toString rma_id ++ " not found")
  | some rma =>
    if rma.status != "RECEIVED" then
      .error ("RMA must be RECEIVED to start inspection (current: " ++ rma.status ++ ")")
    else
      let db1 := updateRmas db rma_id (fun r =>
        { r with status := "INSPECTING", inspected_by := some inspected_by })
      .ok (logActivity db1 rma_id "INSPECTION_STARTED" (some "RECEIVED") (some "INSPECTING")
        inspected_by "Inspection started")

/-- The valid inspection results of `complete_inspection`. -/
def validResults : List String := ["DEFECTIVE", "MISUSE", "NORMAL_WEAR", "AS_DESCRIBED"]

/-- `RMAManager.complete_inspection` (Step 4). -/
def complete_inspection (db : DB) (rma_id : Nat) (result notes inspected_by : String)
    (now : Int) : Except String DB :=
  match rmaById db rma_id with
  | none => .error ("RMA " ++ toString rma_id ++ " not found")
  | some rma =>
    if rma.status != "INSPECTING" then
      .error ("RMA must be INSPECTING to complete (current: " ++ rma.status ++ ")")
    else if !(validResults.contains result) then
      .error "Invalid inspection result."
    else
      let db1 := updateRmas db rma_id (fun r =>
        { r with status := "INSPECTED", inspection_result := some result,
                 inspection_notes := some notes, inspected_by := some inspected_by,
                 inspected_at := some now })
      .ok (logActivity db1 rma_id "INSPECTION_COMPLETED" (some "INSPECTING")
        (some "INSPECTED") inspected_by ("Result: " ++ result ++ ". " ++ notes))

/-- The valid disposition values of `make_disposition`. -/
def validDispositions : List String :=
  ["REFUND", "REPLACEMENT", "REPAIR", "REJECT", "STORE_CREDIT"]

/-- `RMAManager.make_disposition` (Step 5): REFUND, REPLACEMENT and
STORE_CREDIT move to PROCESSING; REPAIR and REJECT stay in DISPOSITION.
The audit entry hardcodes `old_status="INSPECTED"` even though the
operation is also legal from DISPOSITION. -/
def make_disposition (db : DB) (rma_id : Nat) (disposition reason decided_by : String)
    (now : Int) : Except String DB :=
  match rmaById db rma_id with
  | none => .error ("RMA " ++ toString rma_id ++ " not found")
  | some rma =>
    if !(rma.status == "INSPECTED" || rma.status == "DISPOSITION") then
      .error ("RMA must be INSPECTED to make disposition (current: " ++ rma.status ++ ")")
    else if !(validDispositions.contains disposition) then
      .error "Invalid disposition."
    else
      let next_status :=
        if disposition == "REFUND" || disposition == "REPLACEMENT"
            || disposition == "STORE_CREDIT" then "PROCESSING"
        else "DISPOSITION"
      let db1 := updateRmas db rma_id (fun r =>
        { r with status := next_status, disposition := some disposition,
                 disposition_reason := some reason, disposition_by := some decided_by,
                 disposition_at := some now })
      .ok (logActivity db1 rma_id "DISPOSITION_DECIDED" (some "INSPECTED")
        (some next_status) decided_by
        ("Disposition: " ++ disposition ++ ". " ++ reason ++ ". Status moved to "
          ++ next_status ++ "."))

/-- `RMAManager.process_refund` (Step 6): guarded on `disposition == REFUND`
and on not having a `Refund` row yet: there is no guard on the RMA status.
Returns the new refund id. -/
def process_refund (db : DB) (rma_id : Nat) (amount_cents : Int)
    (method actor : String) : Except String (Nat × DB) :=
  match rmaById db rma_id with
  | none => .error ("RMA " ++ toString rma_id ++ " not found")
  | some rma =>
    if rma.disposition != some "REFUND" then
      .error ("RMA disposition must be REFUND (current: " ++ pyStr rma.disposition ++ ")")
    else
      match refundByRmaId db rma_id with
      | some _ => .error "Refund already exists for this RMA"
      | none =>
        let fid := db.next_refund_id
        let newRefund : Refund :=
          { id := fid, rma_id := rma_id, sale_id := rma.sale_id,
            amount_cents := amount_cents, method := method, status := "PENDING",
            reference := "", error_message := "", processed_at := none,
            completed_at := none }
        let db1 := { db with refunds := newRefund :: db.refunds,
                             next_refund_id := fid + 1 }
        let db2 := updateRmas db1 rma_id (fun r =>
          { r with status := "PROCESSING", refund_amount_cents := some amount_cents })
        let db3 := logActivity db2 rma_id "REFUND_INITIATED" (some "DISPOSITION")
          (some "PROCESSING") actor
          ("Refund initiated: $" ++ fmtCents amount_cents ++ " via " ++ method)
        .ok (fid, db3)

/-- `RMAManager.complete_refund` (Step 6): no guard on the refund's or the
RMA's current status.  On success it completes the RMA, marks the sale
REFUNDED, adjusts inventory for the RMA's disposition and notifies the
customer.  (A missing RMA row would crash the Python code with a
`TypeError`; it is modelled as an error.) -/
def complete_refund (db : DB) (refund_id : Nat) (reference : String) (success : Bool)
    (error_message : String) (now : Int) : Except String DB :=
  match refundById db refund_id with
  | none => .error "Refund not found"
  | some refund =>
    match rmaById db refund.rma_id with
    | none => .error "RMA row missing for refund"
    | some rma =>
      let status := if success then "COMPLETED" else "FAILED"
      let db1 := updateRefunds db refund_id (fun f =>
        { f with status := status, reference := reference,
                 error_message := error_message, processed_at := some now,
                 completed_at := if status == "COMPLETED" then some now else none })
      if success then
        let db2 := updateRmas db1 refund.rma_id (fun r =>
          { r with status := "COMPLETED", closed_at := some now })
        let db3 := updateSales db2 refund.sale_id (fun s => { s with status := "REFUNDED" })
        let adj := adjustInventory db3 refund.rma_id rma.disposition
        let db5 := logActivity adj.1 refund.rma_id "REFUND_COMPLETED" (some "PROCESSING")
          (some "COMPLETED") "system"
          ("Refund completed. Reference: " ++ reference ++ ". " ++ adj.2 ++ ".")
        .ok (notifyCustomer db5 refund.rma_id "COMPLETED_REFUND"
          ("Amount: $" ++ fmtCents refund.amount_cents ++ ". Reference: " ++ reference))
      else
        .ok (logActivity db1 refund.rma_id "REFUND_FAILED" (some "PROCESSING")
          (some "PROCESSING") "system" ("Refund failed: " ++ error_message))

/-- `RMAManager._update_metrics` (Step 7): upsert of the daily counters.
(The cycle-time computation of the Python code is dead local state.) -/
def updateMetrics (db : DB) (today : String) : DB :=
  if db.rma_metrics.any (fun m => m.metric_date == today) then
    { db with rma_metrics := db.rma_metrics.map (fun m =>
        if m.metric_date == today then
          { m with total_requests := m.total_requests + 1,
                   completed_requests := m.completed_requests + 1 }
        else m) }
  else
    { db with rma_metrics := ⟨today, 1, 1⟩ :: db.rma_metrics }

/-- `RMAManager.close_rma` (Step 7): idempotent no-op when already
COMPLETED.  (The Python file defines `close_rma` twice; the second
definition, which this follows, shadows the first; they differ only in the
note text.) -/
def close_rma (db : DB) (rma_id : Nat) (actor notes : String) (now : Int)
    (today : String) : Except String DB :=
  match rmaById db rma_id with
  | none => .error ("RMA " ++ toString rma_id ++ " not found")
  | some rma =>
    if rma.status == "COMPLETED" then
      .ok db
    else
      let db1 := updateRmas db rma_id (fun r =>
        { r with status := "COMPLETED", closed_at := some now })
      let db2 := logActivity db1 rma_id "CLOSED" (some rma.status) (some "COMPLETED")
        actor ("RMA closed. " ++ notes)
      .ok (updateMetrics db2 today)

/-- The per-item loop of `process_replacement`: look up the product's current
price, insert a `sale_item` for the replacement sale and decrement stock.
(A missing product row would crash the Python code with a `TypeError`;
modelled as an error.) -/
def replacementLoop (db : DB) (sid : Nat) : List RmaItem → Except String DB
  | [] => .ok db
  | it :: rest =>
    match productById db it.product_id with
    | none => .error "Product row missing for replacement item"
    | some p =>
      let db1 := { db with
        sale_items := { id := db.next_sale_item_id, sale_id := sid,
                        product_id := it.product_id, quantity := it.quantity,
                        price_cents := p.price_cents } :: db.sale_items,
        next_sale_item_id := db.next_sale_item_id + 1,
        products := bumpStock db.products it.product_id (-it.quantity) }
      replacementLoop db1 sid rest

/-- `RMAManager.process_replacement` (Step 6): guarded only on
`disposition == REPLACEMENT`.  Creates a new zero-total COMPLETED sale with
the RMA's items, decrements stock for them, completes the RMA and notifies
the customer.  Returns the replacement sale id. -/
def process_replacement (db : DB) (rma_id : Nat) (actor : String) (now : Int) :
    Except String (Nat × DB) :=
  match rmaById db rma_id with
  | none => .error ("RMA " ++ toString rma_id ++ " not found")
  | some rma =>
    if rma.disposition != some "REPLACEMENT" then
      .error ("RMA disposition must be REPLACEMENT (current: " ++ pyStr rma.disposition ++ ")")
    else
      let rma_items := itemsOf db rma_id
      let sid := db.next_sale_id
      let db1 := { db with
        sales := { id := sid, user_id := rma.user_id, status := "COMPLETED",
                   total_cents := 0, sale_time := none } :: db.sales,
        next_sale_id := sid + 1 }
      match replacementLoop db1 sid rma_items with
      | .error e => .error e
      | .ok db2 =>
        let db3 := updateRmas db2 rma_id (fun r =>
          { r with status := "COMPLETED", closed_at := some now })
        let db4 := logActivity db3 rma_id "REPLACEMENT_PROCESSED" (some "DISPOSITION")
          (some "COMPLETED") actor
          ("Replacement order created: #" ++ toString sid
            ++ ". Inventory decreased for replacement items.")
        .ok (sid, notifyCustomer db4 rma_id "COMPLETED_REPLACEMENT"
          ("Replacement order #" ++ toString sid ++ " has been created and will ship soon."))

/-- `RMAManager.process_store_credit` (Step 6): guarded only on
`disposition == STORE_CREDIT`; restores inventory and completes the RMA. -/
def process_store_credit (db : DB) (rma_id : Nat) (amount_cents : Int) (actor : String)
    (now : Int) : Except String DB :=
  match rmaById db rma_id with
  | none => .error ("RMA " ++ toString rma_id ++ " not found")
  | some rma =>
    if rma.disposition != some "STORE_CREDIT" then
      .error ("RMA disposition must be STORE_CREDIT (current: " ++ pyStr rma.disposition ++ ")")
    else
      let adj := adjustInventory db rma_id (some "STORE_CREDIT")
      let db1 := updateRmas adj.1 rma_id (fun r =>
        { r with status := "COMPLETED", refund_amount_cents := some amount_cents,
                 closed_at := some now })
      let db2 := logActivity db1 rma_id "STORE_CREDIT_ISSUED" (some "DISPOSITION")
        (some "COMPLETED") actor
        ("Store credit issued: $" ++ fmtCents amount_cents ++ ". " ++ adj.2 ++ ".")
      .ok (notifyCustomer db2 rma_id "COMPLETED_CREDIT"
        ("$" ++ fmtCents amount_cents ++ " in store credit has been added to your account."))

/-- `RMAManager.process_repair` (Step 6): guarded on
`disposition == REPAIR` and `status == DISPOSITION` (the only disposition
handler with a status guard, preventing duplicate initiation). -/
def process_repair (db : DB) (rma_id : Nat) (actor notes : String) :
    Except String DB :=
  match rmaById db rma_id with
  | none => .error ("RMA " ++ toString rma_id ++ " not found")
  | some rma =>
    if rma.disposition != some "REPAIR" then
      .error ("RMA disposition must be REPAIR (current: " ++ pyStr rma.disposition ++ ")")
    else if rma.status != "DISPOSITION" then
      .error "Repair already initiated or invalid status for initiation"
    else
      let db1 := updateRmas db rma_id (fun r => { r with status := "PROCESSING" })
      .ok (logActivity db1 rma_id "REPAIR_INITIATED" (some "DISPOSITION")
        (some "PROCESSING") actor
        ("Repair initiated. " ++ notes ++ ". Inventory not restored (item under repair)."))

/-- `RMAManager.complete_repair`: guarded only on `disposition == REPAIR`;
inventory untouched. -/
def complete_repair (db : DB) (rma_id : Nat) (actor notes : String) (now : Int) :
    Except String DB :=
  match rmaById db rma_id with
  | none => .error ("RMA " ++ toString rma_id ++ " not found")
  | some rma =>
    if rma.disposition != some "REPAIR" then
      .error ("RMA disposition must be REPAIR (current: " ++ pyStr rma.disposition ++ ")")
    else
      let db1 := updateRmas db rma_id (fun r =>
        { r with status := "COMPLETED", closed_at := some now })
      let db2 := logActivity db1 rma_id "REPAIR_COMPLETED" (some "PROCESSING")
        (some "COMPLETED") actor
        ("Repair completed and item returned to customer. " ++ notes ++ ".")
      .ok (notifyCustomer db2 rma_id "COMPLETED_REPAIR"
        "Your repaired item has been shipped back to you.")

/-- `RMAManager.process_rejection` (Step 6): guarded only on
`disposition == REJECT`; no inventory change. -/
def process_rejection (db : DB) (rma_id : Nat) (actor notes : String) (now : Int) :
    Except String DB :=
  match rmaById db rma_id with
  | none => .error ("RMA " ++ toString rma_id ++ " not found")
  | some rma =>
    if rma.disposition != some "REJECT" then
      .error ("RMA disposition must be REJECT (current: " ++ pyStr rma.disposition ++ ")")
    else
      let adj := adjustInventory db rma_id (some "REJECT")
      let db1 := updateRmas adj.1 rma_id (fun r =>
        { r with status := "COMPLETED", closed_at := some now })
      let db2 := logActivity db1 rma_id "RETURN_REJECTED" (some "DISPOSITION")
        (some "COMPLETED") actor
        ("Return rejected. " ++ notes ++ ". " ++ adj.2 ++ ".")
      .ok (notifyCustomer db2 rma_id "REJECTED"
        ("After review, we are unable to process your return. Reason: " ++ notes))

/-- `RMAManager.cancel_rma`: blocked only for COMPLETED and CANCELLED
(REJECTED is missing from the block list). -/
def cancel_rma (db : DB) (rma_id : Nat) (actor reason : String) (now : Int) :
    Except String DB :=
  match rmaById db rma_id with
  | none => .error ("RMA " ++ toString rma_id ++ " not found")
  | some rma =>
    if rma.status == "COMPLETED" || rma.status == "CANCELLED" then
      .error ("Cannot cancel RMA with status: " ++ rma.status)
    else
      let db1 := updateRmas db rma_id (fun r =>
        { r with status := "CANCELLED", closed_at := some now })
      .ok (logActivity db1 rma_id "CANCELLED" (some rma.status) (some "CANCELLED") actor
        ("RMA cancelled. " ++ reason))

/-- The `POST /rma/<id>/shipping` route of `src/rma/routes.py`
(`update_shipping`): requires a logged-in session, a truthy `carrier` and
`tracking_number` in the request body (rejected with `BadRequest` before any
database access otherwise), checks RMA ownership, then delegates to
`update_shipping_info`. -/
def update_shipping_route (db : DB) (rma_id : Nat) (session_user : Option Nat)
    (carrier tracking_number : Option String) (now : Int) : Except String DB :=
  match session_user with
  | none => .error "login required"
  | some uid =>
    if optStrFalsy carrier || optStrFalsy tracking_number then
      .error "carrier and tracking_number are required"
    else
      match rmaById db rma_id with
      | none => .error "Forbidden: Access denied"
      | some rma =>
        if rma.user_id != uid then .error "Forbidden: Access denied"
        else
          update_shipping_info db rma_id (carrier.getD "") (tracking_number.getD "")
            ("user_" ++ toString uid) now

/-- One inbound transition operation of the RMA state machine and its
disposition sub-workflows (spec §4.1/§4.2), with its request payload. -/
inductive Op where
  | submit (sale_id user_id : Nat) (reason : String) (items : List ItemInput)
      (description : String) (photo_urls : List String) (now : Int)
  | validate (rma_id : Nat) (validated_by : String) (approve : Bool)
      (validation_notes : String) (check_warranty check_purchase_date : Bool)
      (now : Int) (today : String)
  | updateShipping (rma_id : Nat) (carrier tracking_number actor : String) (now : Int)
  | markReceived (rma_id : Nat) (actor : String) (now : Int)
  | startInspection (rma_id : Nat) (inspected_by : String)
  | completeInspection (rma_id : Nat) (result notes inspected_by : String) (now : Int)
  | makeDisposition (rma_id : Nat) (disposition reason decided_by : String) (now : Int)
  | processRefund (rma_id : Nat) (amount_cents : Int) (method actor : String)
  | completeRefund (refund_id : Nat) (reference : String) (success : Bool)
      (error_message : String) (now : Int)
  | closeRma (rma_id : Nat) (actor notes : String) (now : Int) (today : String)
  | processReplacement (rma_id : Nat) (actor : String) (now : Int)
  | processStoreCredit (rma_id : Nat) (amount_cents : Int) (actor : String) (now : Int)
  | processRepair (rma_id : Nat) (actor notes : String)
  | completeRepair (rma_id : Nat) (actor notes : String) (now : Int)
  | processRejection (rma_id : Nat) (actor notes : String) (now : Int)
  | cancelRma (rma_id : Nat) (actor reason : String) (now : Int)
  deriving Repr

/-- Apply one operation to the database, discarding the auxiliary result. -/
def Op.apply : Op → DB → Except String DB
  | .submit sid uid r its d ph now, db =>
      (submit_rma_request db sid uid r its d ph now).map Prod.snd
  | .validate rid vb ap vn cw cp now today, db =>
      (validate_rma_request db rid vb ap vn cw cp now today).map Prod.snd
  | .updateShipping rid c t a now, db => update_shipping_info db rid c t a now
  | .markReceived rid a now, db => mark_received db rid a now
  | .startInspection rid ib, db => start_inspection db rid ib
  | .completeInspection rid res n ib now, db => complete_inspection db rid res n ib now
  | .makeDisposition rid d r by_ now, db => make_disposition db rid d r by_ now
  | .processRefund rid amt m a, db => (process_refund db rid amt m a).map Prod.snd
  | .completeRefund fid ref s em now, db => complete_refund db fid ref s em now
  | .closeRma rid a n now today, db => close_rma db rid a n now today
  | .processReplacement rid a now, db => (process_replacement db rid a now).map Prod.snd
  | .processStoreCredit rid amt a now, db => process_store_credit db rid amt a now
  | .processRepair rid a n, db => process_repair db rid a n
  | .completeRepair rid a n now, db => complete_repair db rid a n now
  | .processRejection rid a n now, db => process_rejection db rid a n now
  | .cancelRma rid a r now, db => cancel_rma db rid a r now

/-- Run a sequence of operations, stopping at the first error. -/
def runOps (db : DB) : List Op → Except String DB
  | [] => .ok db
  | op :: rest =>
    match op.apply db with
    | .error e => .error e
    | .ok db' => runOps db' rest

/-- Database well-formedness: primary keys are unique and below the
AUTOINCREMENT counters. -/
def DB.WF (db : DB) : Prop :=
  (db.rma_requests.map (fun r => r.id)).Nodup ∧
  (db.products.map (fun p => p.id)).Nodup ∧
  (db.sales.map (fun s => s.id)).Nodup ∧
  (db.refunds.map (fun f => f.id)).Nodup ∧
  (∀ r ∈ db.rma_requests, r.id < db.next_rma_id) ∧
  (∀ s ∈ db.sales, s.id < db.next_sale_id) ∧
  (∀ f ∈ db.refunds, f.id < db.next_refund_id)

instance (db : DB) : Decidable db.WF := by unfold DB.WF; infer_instance

/-- The status of RMA `rid`, when present. -/
def rmaStatusOf (db : DB) (rid : Nat) : Option String :=
  (rmaById db rid).map (fun r => r.status)

/-- The rma_number of RMA `rid`, when present. -/
def rmaNumberOf (db : DB) (rid : Nat) : Option (Option String) :=
  (rmaById db rid).map (fun r => r.rma_number)

/-- The persisted `warranty_valid` flag of RMA `rid`, when present. -/
def warrantyValidOf (db : DB) (rid : Nat) : Option (Option Bool) :=
  (rmaById db rid).map (fun r => r.warranty_valid)

/-- The persisted `is_eligible` flag of RMA `rid`, when present. -/
def isEligibleOf (db : DB) (rid : Nat) : Option (Option Bool) :=
  (rmaById db rid).map (fun r => r.is_eligible)

/-- The audit-relevant projection of an activity row: which RMA, which
action, and the recorded old and new statuses. -/
def logShape (e : ActivityLogEntry) :
    Nat × String × Option String × Option String :=
  (e.rma_id, e.action, e.old_status, e.new_status)

/-- All audit rows, newest first, projected to their audit-relevant fields. -/
def logShapes (db : DB) : List (Nat × String × Option String × Option String) :=
  db.activity_log.map logShape

/-- Number of non-terminal (`REJECTED`/`CANCELLED`/`COMPLETED`) RMAs of one
sale — the quantity that spec §3 demands stays ≤ 1. -/
def activeCount (db : DB) (sid : Nat) : Nat :=
  (db.rma_requests.filter (fun r =>
    r.sale_id == sid &&
      !(r.status == "REJECTED" || r.status == "CANCELLED" || r.status == "COMPLETED"))).length

/-- The resulting state of a state-valued operation, with a fallback for the
error case (used to state closed witness/counterexample facts). -/
def okState (e : Except String DB) (fallback : DB) : DB :=
  match e with
  | .ok d => d
  | .error _ => fallback

/-- First component of a pair-valued operation result, with fallback. -/
def okResFst {α : Type} (e : Except String (α × DB)) (fallback : α) : α :=
  match e with
  | .ok x => x.1
  | .error _ => fallback

/-- Resulting state of a pair-valued operation, with fallback. -/
def okResSnd {α : Type} (e : Except String (α × DB)) (fallback : DB) : DB :=
  match e with
  | .ok x => x.2
  | .error _ => fallback

/-- Sum of the quantities of the given RMA items that reference product
`pid`. -/
def sumQtyFor (items : List RmaItem) (pid : Nat) : Int :=
  items.foldr (fun it a => (if it.product_id == pid then it.quantity else 0) + a) 0

/-- Summed quantities of RMA `rid`'s items for product `pid`. -/
def rmaQty (db : DB) (rid pid : Nat) : Int :=
  sumQtyFor (itemsOf db rid) pid

/-- Whether an operation result is a success. -/
def exceptIsOk : Except String DB → Bool
  | .ok _ => true
  | .error _ => false

/-- Test fixture: an RMA row with the given key fields and neutral
defaults for the remaining columns. -/
def mkRma (id sale_id user_id : Nat) (status : String) (dispo rnum : Option String) :
    RmaRequest :=
  { id := id, rma_number := rnum, sale_id := sale_id, user_id := user_id,
    reason := "defective", description := "", photo_urls := [], status := status,
    disposition := dispo, validation_notes := none, validated_by := none,
    validated_at := none, is_eligible := none, warranty_valid := none,
    purchase_date_valid := none, shipping_carrier := none, tracking_number := none,
    shipped_at := none, received_at := none, inspection_result := none,
    inspection_notes := none, inspected_by := none, inspected_at := none,
    disposition_reason := none, disposition_by := none, disposition_at := none,
    refund_amount_cents := none, created_at := 0, closed_at := none }

/-- Test fixture: a store with one product (stock 10), one COMPLETED sale of
user 7 at time 0, and RMAs in the various disposition sub-workflow
pre-states. -/
def dbW : DB :=
  { products := [⟨1, 10, 1999⟩],
    sales := [⟨1, 7, "COMPLETED", 3998, some 0⟩],
    sale_items := [⟨1, 1, 1, 2, 1999⟩],
    rma_requests :=
      [mkRma 1 1 7 "PROCESSING" (some "REFUND") (some "RMA-20260101-0001"),
       mkRma 2 1 7 "PROCESSING" (some "STORE_CREDIT") (some "RMA-20260101-0002"),
       mkRma 3 1 7 "DISPOSITION" (some "REPAIR") (some "RMA-20260101-0003"),
       mkRma 4 1 7 "PROCESSING" (some "REPAIR") (some "RMA-20260101-0004"),
       mkRma 5 1 7 "DISPOSITION" (some "REJECT") (some "RMA-20260101-0005"),
       mkRma 6 1 7 "PROCESSING" (some "REPLACEMENT") (some "RMA-20260101-0006"),
       mkRma 7 1 7 "APPROVED" none (some "RMA-20260101-0007"),
       mkRma 8 1 7 "COMPLETED" none (some "RMA-20260101-0008"),
       mkRma 9 1 7 "SHIPPING" none (some "RMA-20260101-0009"),
       mkRma 10 1 7 "RECEIVED" none (some "RMA-20260101-0010"),
       mkRma 11 1 7 "INSPECTING" none (some "RMA-20260101-0011"),
       mkRma 12 1 7 "INSPECTED" none (some "RMA-20260101-0012"),
       mkRma 13 1 7 "PROCESSING" (some "REFUND") (some "RMA-20260101-0013")],
    rma_items := [⟨1, 1, 1, 2, ""⟩, ⟨2, 1, 1, 2, ""⟩, ⟨3, 1, 1, 2, ""⟩,
                  ⟨4, 1, 1, 2, ""⟩, ⟨5, 1, 1, 2, ""⟩, ⟨6, 1, 1, 2, ""⟩],
    refunds := [⟨1, 1, 1, 3998, "ORIGINAL_PAYMENT", "PENDING", "", "", none, none⟩],
    activity_log := [], notifications := [], rma_metrics := [],
    next_sale_id := 2, next_sale_item_id := 2, next_rma_id := 14, next_refund_id := 2 }

/-- Test fixture: like `dbW` but the refund of RMA 1 is already COMPLETED. -/
def dbC10 : DB :=
  { dbW with
    refunds := [⟨1, 1, 1, 3998, "ORIGINAL_PAYMENT", "COMPLETED", "ref1", "",
                 some 2, some 2⟩] }

/-- Scenario fixture: a fresh store with one product (stock 10) and one
COMPLETED sale (user 7, time 0) and no RMAs yet. -/
def dbS : DB :=
  { products := [⟨1, 10, 1999⟩],
    sales := [⟨1, 7, "COMPLETED", 3998, some 0⟩],
    sale_items := [⟨1, 1, 1, 2, 1999⟩],
    rma_requests := [], rma_items := [], refunds := [],
    activity_log := [], notifications := [], rma_metrics := [],
    next_sale_id := 2, next_sale_item_id := 2, next_rma_id := 1, next_refund_id := 1 }

/-- Scenario: the full refund flow up to the disposition decision, then a
customer cancellation, a second submission for the same sale, and a
`process_refund` against the cancelled first RMA. -/
def c3Ops : List Op :=
  [.submit 1 7 "defective" [⟨1, 1, 2, "defective"⟩] "" [] 86400,
   .validate 1 "admin" true "" true true 86400 "20260101",
   .updateShipping 1 "UPS" "1Z1" "user_7" 86400,
   .markReceived 1 "warehouse" 86400,
   .startInspection 1 "QA",
   .completeInspection 1 "DEFECTIVE" "" "QA" 86400,
   .makeDisposition 1 "REFUND" "" "warranty_team" 86400,
   .cancelRma 1 "customer" "changed mind" 86400,
   .submit 1 7 "still defective" [⟨1, 1, 2, "defective"⟩] "" [] 86400,
   .processRefund 1 3998 "ORIGINAL_PAYMENT" "system"]

/-- Scenario: submission followed by a rejecting validation. -/
def c8PreOps : List Op :=
  [.submit 1 7 "defective" [⟨1, 1, 2, "defective"⟩] "" [] 86400,
   .validate 1 "admin" false "" true true 86400 "20260101"]

/-- Scenario: cancelling the RMA that validation just REJECTED. -/
def c8Ops : List Op := c8PreOps ++ [.cancelRma 1 "customer" "" 86400]

/-- Scenario: the full replacement flow ending in `process_replacement`. -/
def c7Ops1 : List Op :=
  [.submit 1 7 "defective" [⟨1, 1, 2, "defective"⟩] "" [] 86400,
   .validate 1 "admin" true "" true true 86400 "20260101",
   .updateShipping 1 "UPS" "1Z1" "user_7" 86400,
   .markReceived 1 "warehouse" 86400,
   .startInspection 1 "QA",
   .completeInspection 1 "DEFECTIVE" "" "QA" 86400,
   .makeDisposition 1 "REPLACEMENT" "" "warranty_team" 86400,
   .processReplacement 1 "system" 86400]

/-- Scenario: re-invoking `process_replacement` on the COMPLETED RMA. -/
def c7Ops2 : List Op := c7Ops1 ++ [.processReplacement 1 "system" 86400]

/-- Modelled from the spec's words (§4.4, §8): the claimed warranty-window
check "sale time + 30 days ≥ now" — a refinement reference to compare with
the code's strict `_check_warranty`. -/
def specWarrantyValid (sale_time now : Int) : Bool :=
  decide (sale_time + warrantyWindow ≥ now)

/-- Modelled from the spec's words: purchase-date check "sale time < now". -/
def specPurchaseDateValid (sale_time now : Int) : Bool :=
  decide (sale_time < now)

/-- The spec's claimed eligibility: warranty window AND purchase date. -/
def specEligible (sale_time now : Int) : Bool :=
  specWarrantyValid sale_time now && specPurchaseDateValid sale_time now

/-- Scenario fixture: `dbS` with one freshly SUBMITTED RMA for sale 1. -/
def dbC5 : DB :=
  { dbS with rma_requests := [mkRma 1 1 7 "SUBMITTED" none none], next_rma_id := 2 }

/-- The rma_number discipline of one transition (C6), relating the RMA rows
before (`old`) and after (`new`): every surviving row keeps its
`rma_number` unless this is the first approval (unset number, SUBMITTED →
APPROVED, number becomes set); any row whose status turns APPROVED has a
number afterwards; rows created by the transition start unnumbered in
status SUBMITTED.  (`optStrFalsy` mirrors Python's `not rma["rma_number"]`,
which treats NULL and "" alike.) -/
def C6prop (old new : List RmaRequest) : Prop :=
  (∀ r' ∈ new, ∀ r ∈ old, r.id = r'.id →
      (r'.rma_number = r.rma_number ∨
        (optStrFalsy r.rma_number = true ∧ r.status = "SUBMITTED" ∧
         r'.status = "APPROVED" ∧ r'.rma_number.isSome = true)) ∧
      (r.status ≠ "APPROVED" → r'.status = "APPROVED" → r'.rma_number.isSome = true)) ∧
  (∀ r' ∈ new, (∀ r ∈ old, r.id ≠ r'.id) →
      r'.rma_number = none ∧ r'.status = "SUBMITTED")

@[simp] theorem logActivity_products (db : DB) (i : Nat) (a : String)
    (o n : Option String) (ac nt : String) (m : List (String × String)) :
    (logActivity db i a o n ac nt m).products = db.products := rfl

@[simp] theorem logActivity_sales (db : DB) (i : Nat) (a : String)
    (o n : Option String) (ac nt : String) (m : List (String × String)) :
    (logActivity db i a o n ac nt m).sales = db.sales := rfl

@[simp] theorem logActivity_rma_requests (db : DB) (i : Nat) (a : String)
    (o n : Option String) (ac nt : String) (m : List (String × String)) :
    (logActivity db i a o n ac nt m).rma_requests = db.rma_requests := rfl

@[simp] theorem logActivity_rma_items (db : DB) (i : Nat) (a : String)
    (o n : Option String) (ac nt : String) (m : List (String × String)) :
    (logActivity db i a o n ac nt m).rma_items = db.rma_items := rfl

@[simp] theorem logActivity_refunds (db : DB) (i : Nat) (a : String)
    (o n : Option String) (ac nt : String) (m : List (String × String)) :
    (logActivity db i a o n ac nt m).refunds = db.refunds := rfl

@[simp] theorem logActivity_sale_items (db : DB) (i : Nat) (a : String)
    (o n : Option String) (ac nt : String) (m : List (String × String)) :
    (logActivity db i a o n ac nt m).sale_items = db.sale_items := rfl

@[simp] theorem updateRmas_products (db : DB) (i : Nat) (f : RmaRequest → RmaRequest) :
    (updateRmas db i f).products = db.products := rfl

@[simp] theorem updateRmas_sales (db : DB) (i : Nat) (f : RmaRequest → RmaRequest) :
    (updateRmas db i f).sales = db.sales := rfl

@[simp] theorem updateRmas_refunds (db : DB) (i : Nat) (f : RmaRequest → RmaRequest) :
    (updateRmas db i f).refunds = db.refunds := rfl

@[simp] theorem updateRmas_rma_items (db : DB) (i : Nat) (f : RmaRequest → RmaRequest) :
    (updateRmas db i f).rma_items = db.rma_items := rfl

@[simp] theorem updateRmas_activity_log (db : DB) (i : Nat) (f : RmaRequest → RmaRequest) :
    (updateRmas db i f).activity_log = db.activity_log := rfl

@[simp] theorem updateRmas_sale_items (db : DB) (i : Nat) (f : RmaRequest → RmaRequest) :
    (updateRmas db i f).sale_items = db.sale_items := rfl

@[simp] theorem updateSales_products (db : DB) (i : Nat) (f : Sale → Sale) :
    (updateSales db i f).products = db.products := rfl

@[simp] theorem updateSales_rma_requests (db : DB) (i : Nat) (f : Sale → Sale) :
    (updateSales db i f).rma_requests = db.rma_requests := rfl

@[simp] theorem updateSales_rma_items (db : DB) (i : Nat) (f : Sale → Sale) :
    (updateSales db i f).rma_items = db.rma_items := rfl

@[simp] theorem updateSales_refunds (db : DB) (i : Nat) (f : Sale → Sale) :
    (updateSales db i f).refunds = db.refunds := rfl

@[simp] theorem updateSales_activity_log (db : DB) (i : Nat) (f : Sale → Sale) :
    (updateSales db i f).activity_log = db.activity_log := rfl

@[simp] theorem updateRefunds_products (db : DB) (i : Nat) (f : Refund → Refund) :
    (updateRefunds db i f).products = db.products := rfl

@[simp] theorem updateRefunds_sales (db : DB) (i : Nat) (f : Refund → Refund) :
    (updateRefunds db i f).sales = db.sales := rfl

@[simp] theorem updateRefunds_rma_requests (db : DB) (i : Nat) (f : Refund → Refund) :
    (updateRefunds db i f).rma_requests = db.rma_requests := rfl

@[simp] theorem updateRefunds_rma_items (db : DB) (i : Nat) (f : Refund → Refund) :
    (updateRefunds db i f).rma_items = db.rma_items := rfl

@[simp] theorem updateRefunds_activity_log (db : DB) (i : Nat) (f : Refund → Refund) :
    (updateRefunds db i f).activity_log = db.activity_log := rfl

theorem find?_map_keyPreserving {α : Type} (key : α → Nat) (g : α → α)
    (hg : ∀ x, key (g x) = key x) (l : List α) (j : Nat) :
    (l.map g).find? (fun x => key x == j) =
      (l.find? (fun x => key x == j)).map g := by
  induction l with
  | nil => rfl
  | cons a l ih =>
    simp only [List.map_cons, List.find?_cons, hg]
    cases h : (key a == j) <;> simp [h, ih]

theorem productByIdL_bumpStock (ps : List Product) (pid q : Nat) (d : Int) :
    productByIdL (bumpStock ps pid d) q =
      (productByIdL ps q).map
        (fun p => if p.id == pid then { p with stock := p.stock + d } else p) := by
  have hg : ∀ p : Product,
      (if p.id == pid then { p with stock := p.stock + d } else p).id = p.id := by
    intro p
    split <;> rfl
  exact find?_map_keyPreserving (fun p => p.id)
    (fun p => if p.id == pid then { p with stock := p.stock + d } else p) hg ps q

theorem productByIdL_bumpStock_isSome (ps : List Product) (pid q : Nat) (d : Int) :
    (productByIdL (bumpStock ps pid d) q).isSome = (productByIdL ps q).isSome := by
  rw [productByIdL_bumpStock]
  cases productByIdL ps q <;> rfl

theorem stockOfL_bumpStock (ps : List Product) (pid q : Nat) (d : Int) :
    stockOfL (bumpStock ps pid d) q =
      stockOfL ps q + (if (productByIdL ps q).isSome ∧ q = pid then d else 0) := by
  unfold stockOfL
  rw [productByIdL_bumpStock]
  cases h : productByIdL ps q with
  | none => simp
  | some p =>
    unfold productByIdL at h
    have hq' : p.id = q := by simpa using List.find?_some h
    by_cases h2 : q = pid
    · subst h2
      simp [hq']
    · have hne : ¬p.id = pid := by
        rw [hq']
        exact h2
      simp [hne, h2]

theorem stockOfL_restoreItems (items : List RmaItem) (ps : List Product) (q : Nat) :
    stockOfL (restoreItems ps items) q =
      stockOfL ps q + (if (productByIdL ps q).isSome then sumQtyFor items q else 0) := by
  induction items generalizing ps with
  | nil => simp [restoreItems, sumQtyFor]
  | cons it rest ih =>
    have hstep : restoreItems ps (it :: rest) =
        restoreItems (bumpStock ps it.product_id it.quantity) rest := rfl
    rw [hstep, ih, stockOfL_bumpStock, productByIdL_bumpStock_isSome]
    by_cases hs : (productByIdL ps q).isSome
    · by_cases he : q = it.product_id
      · subst he
        simp only [sumQtyFor, List.foldr_cons, beq_self_eq_true, if_pos, hs, and_true,
          if_true, reduceIte]
        ring
      · have he' : ¬it.product_id = q := fun hh => he hh.symm
        simp [hs, he, he', sumQtyFor]
    · simp [hs]

theorem find?_updateRmasL (l : List RmaRequest) (i j : Nat)
    (f : RmaRequest → RmaRequest) (hid : ∀ r, (f r).id = r.id) :
    (updateRmasL l i f).find? (fun r => r.id == j) =
      (l.find? (fun r => r.id == j)).map (fun r => if r.id == i then f r else r) := by
  have hg : ∀ r : RmaRequest, (if r.id == i then f r else r).id = r.id := by
    intro r
    split
    · exact hid r
    · rfl
  exact find?_map_keyPreserving (fun r => r.id)
    (fun r => if r.id == i then f r else r) hg l j

theorem rmaById_updateRmas (db : DB) (i j : Nat) (f : RmaRequest → RmaRequest)
    (hid : ∀ r, (f r).id = r.id) :
    rmaById (updateRmas db i f) j =
      (rmaById db j).map (fun r => if r.id == i then f r else r) := by
  unfold rmaById updateRmas
  exact find?_updateRmasL db.rma_requests i j f hid

theorem rmaById_self_update (db : DB) (rid : Nat) (rma : RmaRequest)
    (f : RmaRequest → RmaRequest) (hid : ∀ r, (f r).id = r.id)
    (hr : rmaById db rid = some rma) :
    rmaById (updateRmas db rid f) rid = some (f rma) := by
  rw [rmaById_updateRmas db rid rid f hid, hr]
  have hb : rma.id = rid := by
    have := List.find?_some (p := fun r : RmaRequest => r.id == rid) hr
    simpa using this
  simp [hb]

/-- On success with disposition REFUND, `complete_refund` succeeds
unconditionally and adds the summed item quantities back to each existing
product's stock. -/
theorem complete_refund_stock (db : DB) (fid : Nat) (rf : Refund) (rma : RmaRequest)
    (reference error_message : String) (now : Int) (pid : Nat) (p : Product)
    (hf : refundById db fid = some rf)
    (hr : rmaById db rf.rma_id = some rma)
    (hd : rma.disposition = some "REFUND")
    (hp : productById db pid = some p) :
    ∃ db', complete_refund db fid reference true error_message now = .ok db' ∧
      stockOf db' pid = p.stock + rmaQty db rf.rma_id pid := by
  simp only [complete_refund, hf, hr, hd]
  refine ⟨_, rfl, ?_⟩
  unfold stockOf notifyCustomer
  simp only [logActivity_products]
  simp only [adjustInventory]
  norm_num
  unfold itemsOf
  simp only [updateSales_rma_items, updateRmas_rma_items, updateRefunds_rma_items,
    updateSales_products, updateRmas_products, updateRefunds_products]
  rw [stockOfL_restoreItems]
  unfold productById at hp
  unfold stockOfL
  rw [hp]
  simp [rmaQty, itemsOf]

/-- Effect of the per-item replacement loop: stock drops by the summed
quantities; sales, RMA rows and RMA items are untouched. -/
theorem replacementLoop_ok (items : List RmaItem) (db : DB) (sid : Nat) (db' : DB)
    (h : replacementLoop db sid items = .ok db') :
    (∀ q, stockOfL db'.products q = stockOfL db.products q - sumQtyFor items q) ∧
    db'.sales = db.sales ∧ db'.rma_requests = db.rma_requests ∧
    db'.rma_items = db.rma_items ∧ db'.activity_log = db.activity_log := by
  induction items generalizing db with
  | nil =>
    simp only [replacementLoop, Except.ok.injEq] at h
    subst h
    simp [sumQtyFor]
  | cons it rest ih =>
    simp only [replacementLoop] at h
    cases hp : productById db it.product_id with
    | none =>
      rw [hp] at h
      simp at h
    | some p =>
      rw [hp] at h
      obtain ⟨hstock, hsales, hrmas, hitems⟩ := ih _ h
      refine ⟨?_, hsales, hrmas, hitems⟩
      intro q
      rw [hstock q]
      have hb : stockOfL (bumpStock db.products it.product_id (-it.quantity)) q =
          stockOfL db.products q +
            (if (productByIdL db.products q).isSome ∧ q = it.product_id
             then -it.quantity else 0) := stockOfL_bumpStock _ _ _ _
      show stockOfL (bumpStock db.products it.product_id (-it.quantity)) q
          - sumQtyFor rest q = _
      rw [hb]
      by_cases he : q = it.product_id
      · subst he
        unfold productById at hp
        have hsome : (productByIdL db.products it.product_id).isSome = true := by
          rw [hp]
          rfl
        simp only [hsome, eq_self_iff_true, and_self, if_true, reduceIte, sumQtyFor,
          List.foldr_cons, beq_self_eq_true, if_pos]
        ring
      · have he' : ¬it.product_id = q := fun hh => he hh.symm
        simp only [he, and_false, if_false, sumQtyFor, List.foldr_cons, reduceIte, he']
        simp [he']

/-- `process_replacement` on success: stock of every existing product drops
by the RMA's summed item quantities, and the new sale row is a zero-total
COMPLETED sale for the RMA's user. -/
theorem process_replacement_stock (db : DB) (rid : Nat) (rma : RmaRequest)
    (actor : String) (now : Int) (sid : Nat) (db' : DB) (pid : Nat) (p : Product)
    (hr : rmaById db rid = some rma)
    (hp : productById db pid = some p)
    (h : process_replacement db rid actor now = .ok (sid, db')) :
    stockOf db' pid = p.stock - rmaQty db rid pid ∧
    saleById db' sid = some { id := sid, user_id := rma.user_id, status := "COMPLETED",
                              total_cents := 0, sale_time := none } := by
  simp only [process_replacement, hr] at h
  split at h
  · simp at h
  · cases hloop : replacementLoop
        { db with
          sales := { id := db.next_sale_id, user_id := rma.user_id, status := "COMPLETED",
                     total_cents := 0, sale_time := none } :: db.sales,
          next_sale_id := db.next_sale_id + 1 }
        db.next_sale_id (itemsOf db rid) with
    | error e =>
      rw [hloop] at h
      simp at h
    | ok db2 =>
      rw [hloop] at h
      simp only [Except.ok.injEq, Prod.mk.injEq] at h
      obtain ⟨hsid, hdb⟩ := h
      obtain ⟨hstock, hsales, hrmas, hitems⟩ := replacementLoop_ok _ _ _ _ hloop
      subst hdb
      subst hsid
      constructor
      · unfold stockOf notifyCustomer
        simp only [logActivity_products, updateRmas_products]
        rw [hstock pid]
        unfold stockOfL productById at *
        rw [hp]
        rfl
      · unfold saleById notifyCustomer
        simp only [logActivity_sales, updateRmas_sales]
        rw [hsales]
        simp

/-- `process_store_credit` on success restores the summed item quantities to
each existing product's stock. -/
theorem process_store_credit_stock (db : DB) (rid : Nat) (rma : RmaRequest)
    (amount_cents : Int) (actor : String) (now : Int) (db' : DB) (pid : Nat) (p : Product)
    (hr : rmaById db rid = some rma)
    (hp : productById db pid = some p)
    (h : process_store_credit db rid amount_cents actor now = .ok db') :
    stockOf db' pid = p.stock + rmaQty db rid pid := by
  simp only [process_store_credit, hr] at h
  split at h
  · simp at h
  · simp only [Except.ok.injEq] at h
    subst h
    unfold stockOf notifyCustomer
    simp only [logActivity_products, updateRmas_products]
    simp only [adjustInventory]
    norm_num
    rw [stockOfL_restoreItems]
    unfold productById at hp
    unfold stockOfL
    rw [hp]
    simp [rmaQty, itemsOf]

/-- `process_repair` never touches product stock. -/
theorem process_repair_products (db : DB) (rid : Nat) (actor notes : String) (db' : DB)
    (h : process_repair db rid actor notes = .ok db') : db'.products = db.products := by
  unfold process_repair at h
  cases hr : rmaById db rid with
  | none =>
    rw [hr] at h
    simp at h
  | some rma =>
    rw [hr] at h
    simp only [] at h
    split at h
    · simp at h
    · split at h
      · simp at h
      · simp only [Except.ok.injEq] at h
        subst h
        simp

/-- `complete_repair` never touches product stock. -/
theorem complete_repair_products (db : DB) (rid : Nat) (actor notes : String)
    (now : Int) (db' : DB) (h : complete_repair db rid actor notes now = .ok db') :
    db'.products = db.products := by
  unfold complete_repair at h
  cases hr : rmaById db rid with
  | none =>
    rw [hr] at h
    simp at h
  | some rma =>
    rw [hr] at h
    simp only [] at h
    split at h
    · simp at h
    · simp only [Except.ok.injEq] at h
      subst h
      simp [notifyCustomer]


/-- `process_rejection` never touches product stock (`REJECT` is a no-op of
the inventory adjuster). -/
theorem process_rejection_products (db : DB) (rid : Nat) (actor notes : String)
    (now : Int) (db' : DB) (h : process_rejection db rid actor notes now = .ok db') :
    db'.products = db.products := by
  unfold process_rejection at h
  cases hr : rmaById db rid with
  | none =>
    rw [hr] at h
    simp at h
  | some rma =>
    rw [hr] at h
    simp only [] at h
    split at h
    · simp at h
    · simp only [Except.ok.injEq] at h
      subst h
      simp [notifyCustomer, adjustInventory]

/-- **C1** — For every RMA and every disposition-completion, the inventory
effect is determined solely by the disposition: completing a REFUND
(`complete_refund` with success) or STORE_CREDIT disposition increases each
affected product's stock by exactly the summed quantities of the RMA's
items for that product; completing REPAIR (`process_repair`,
`complete_repair`) or REJECT (`process_rejection`) leaves stock unchanged;
completing REPLACEMENT leaves the original items' stock unchanged but
decreases stock by the item quantities for the newly created replacement
sale (whose items are the RMA's items). -/
theorem C1_disposition_inventory :
    (∀ db fid rf rma reference error_message now db' pid p,
      refundById db fid = some rf →
      rmaById db rf.rma_id = some rma →
      rma.disposition = some "REFUND" →
      productById db pid = some p →
      complete_refund db fid reference true error_message now = .ok db' →
      stockOf db' pid = p.stock + rmaQty db rf.rma_id pid) ∧
    (∀ db rid rma amount_cents actor now db' pid p,
      rmaById db rid = some rma →
      productById db pid = some p →
      process_store_credit db rid amount_cents actor now = .ok db' →
      stockOf db' pid = p.stock + rmaQty db rid pid) ∧
    (∀ db rid actor notes db',
      process_repair db rid actor notes = .ok db' → db'.products = db.products) ∧
    (∀ db rid actor notes now db',
      complete_repair db rid actor notes now = .ok db' → db'.products = db.products) ∧
    (∀ db rid actor notes now db',
      process_rejection db rid actor notes now = .ok db' → db'.products = db.products) ∧
    (∀ db rid rma actor now sid db' pid p,
      rmaById db rid = some rma →
      productById db pid = some p →
      process_replacement db rid actor now = .ok (sid, db') →
      stockOf db' pid = p.stock - rmaQty db rid pid ∧
      saleById db' sid = some { id := sid, user_id := rma.user_id, status := "COMPLETED",
                                total_cents := 0, sale_time := none }) := by
  refine ⟨?_, ?_, ?_, ?_, ?_, ?_⟩
  · intro db fid rf rma reference error_message now db' pid p hf hr hd hp h
    obtain ⟨db2, h2, hstock⟩ :=
      complete_refund_stock db fid rf rma reference error_message now pid p hf hr hd hp
    rw [h] at h2
    cases h2
    exact hstock
  · exact fun db rid rma a ac n db' pid p hr hp h =>
      process_store_credit_stock db rid rma a ac n db' pid p hr hp h
  · exact fun db rid a n db' h => process_repair_products db rid a n db' h
  · exact fun db rid a n now db' h => complete_repair_products db rid a n now db' h
  · exact fun db rid a n now db' h => process_rejection_products db rid a n now db' h
  · exact fun db rid rma a now sid db' pid p hr hp h =>
      process_replacement_stock db rid rma a now sid db' pid p hr hp h

/-- Witness for C1 on the concrete store `dbW` (stock 10, item quantity 2):
refund and store-credit completion raise stock to 12, repair and rejection
leave the product table unchanged, replacement drops stock to 8 and creates
the zero-total COMPLETED sale 2. -/
theorem C1_disposition_inventory_witness :
    (stockOf (okState (complete_refund dbW 1 "r" true "" 5) dbW) 1 = 12) ∧
    (stockOf (okState (process_store_credit dbW 2 500 "system" 5) dbW) 1 = 12) ∧
    ((okState (process_repair dbW 3 "system" "") dbW).products = dbW.products) ∧
    ((okState (complete_repair dbW 4 "system" "" 5) dbW).products = dbW.products) ∧
    ((okState (process_rejection dbW 5 "system" "" 5) dbW).products = dbW.products) ∧
    (stockOf (okResSnd (process_replacement dbW 6 "system" 5) dbW) 1 = 8 ∧
      saleById (okResSnd (process_replacement dbW 6 "system" 5) dbW) 2 =
        some { id := 2, user_id := 7, status := "COMPLETED", total_cents := 0,
               sale_time := none }) :=
  ⟨C1_disposition_inventory.1 dbW 1 _ _ "r" "" 5 _ 1 _ rfl rfl rfl rfl rfl,
   C1_disposition_inventory.2.1 dbW 2 _ 500 "system" 5 _ 1 _ rfl rfl rfl,
   C1_disposition_inventory.2.2.1 dbW 3 "system" "" _ rfl,
   C1_disposition_inventory.2.2.2.1 dbW 4 "system" "" 5 _ rfl,
   C1_disposition_inventory.2.2.2.2.1 dbW 5 "system" "" 5 _ rfl,
   C1_disposition_inventory.2.2.2.2.2 dbW 6 _ "system" 5 2 _ 1 _ rfl rfl rfl⟩

/-- **C10** — `complete_refund` is not guarded by the refund's or the RMA's
status: for a refund already marked COMPLETED, a second call with
success=true succeeds and re-applies the REFUND inventory restore, adding
the summed item quantities to each affected product's stock again.  (The
restore runs once per successful call, not once per refund.) -/
theorem C10_complete_refund_unguarded (db : DB) (fid : Nat) (rf : Refund)
    (rma : RmaRequest) (reference error_message : String) (now : Int)
    (pid : Nat) (p : Product)
    (hf : refundById db fid = some rf)
    (hcompleted : rf.status = "COMPLETED")
    (hr : rmaById db rf.rma_id = some rma)
    (hd : rma.disposition = some "REFUND")
    (hp : productById db pid = some p) :
    ∃ db', complete_refund db fid reference true error_message now = .ok db' ∧
      stockOf db' pid = p.stock + rmaQty db rf.rma_id pid :=
  complete_refund_stock db fid rf rma reference error_message now pid p hf hr hd hp

/-- Witness for C10: on `dbC10` (refund 1 already COMPLETED, stock 10,
quantity 2) a repeated `complete_refund` succeeds and raises stock to 12. -/
theorem C10_complete_refund_unguarded_witness :
    ∃ db', complete_refund dbC10 1 "r2" true "" 5 = .ok db' ∧
      stockOf db' 1 = 12 :=
  C10_complete_refund_unguarded dbC10 1 _ _ "r2" "" 5 1 _ rfl rfl rfl rfl rfl

/-- **C4** — For every RMA that already has a Refund row, a second
`process_refund` call fails with the conflict error `ValueError("Refund
already exists for this RMA")` and, the error being raised before any
insert or update, creates no second Refund row and leaves the RMA's fields
(status, refund_amount_cents) unchanged (a failing call returns no new
state). -/
theorem C4_second_refund_conflict (db : DB) (rma_id : Nat) (rma : RmaRequest)
    (rf : Refund) (amount_cents : Int) (method actor : String)
    (hr : rmaById db rma_id = some rma)
    (hd : rma.disposition = some "REFUND")
    (hf : refundByRmaId db rma_id = some rf) :
    process_refund db rma_id amount_cents method actor =
      .error "Refund already exists for this RMA" := by
  simp [process_refund, hr, hd, hf]

/-- Witness for C4 on `dbW`: RMA 1 already has refund row 1. -/
theorem C4_second_refund_conflict_witness :
    process_refund dbW 1 3998 "ORIGINAL_PAYMENT" "system" =
      .error "Refund already exists for this RMA" :=
  C4_second_refund_conflict dbW 1 _ _ 3998 "ORIGINAL_PAYMENT" "system" rfl rfl rfl

/-- **C9** — The `update_shipping` operation (route `POST
/rma/<id>/shipping`) requires a non-empty carrier and tracking number: for
an RMA in APPROVED or SHIPPING status, a request with an empty (or
missing) carrier or tracking number is rejected with the BadRequest
validation error before any database access, so the RMA's status and
shipping fields are unchanged (no new state is produced). -/
theorem C9_shipping_requires_fields (db : DB) (rma_id uid : Nat) (rma : RmaRequest)
    (carrier tracking_number : Option String) (now : Int)
    (hr : rmaById db rma_id = some rma)
    (hst : rma.status = "APPROVED" ∨ rma.status = "SHIPPING")
    (hempty : optStrFalsy carrier = true ∨ optStrFalsy tracking_number = true) :
    update_shipping_route db rma_id (some uid) carrier tracking_number now =
      .error "carrier and tracking_number are required" := by
  unfold update_shipping_route
  rcases hempty with h | h <;> simp [h]

/-- Witness for C9 on `dbW`: RMA 7 is APPROVED; an empty carrier is
rejected. -/
theorem C9_shipping_requires_fields_witness :
    update_shipping_route dbW 7 (some 7) (some "") (some "1Z1") 5 =
      .error "carrier and tracking_number are required" :=
  C9_shipping_requires_fields dbW 7 7 _ (some "") (some "1Z1") 5 rfl
    (Or.inl rfl) (Or.inl rfl)

/-- **C3 (counterexample)** — the invariant "at most one RMA per sale is
non-terminal at any time" fails on a reachable run: after the refund flow
reaches PROCESSING, the customer cancels, a second RMA is submitted for the
same sale (legal, the first is CANCELLED), and `process_refund` — which
checks only the disposition, never the status — resurrects the cancelled
first RMA to PROCESSING, leaving two non-terminal RMAs for sale 1. -/
theorem C3_counterexample :
    exceptIsOk (runOps dbS c3Ops) = true ∧
    activeCount (okState (runOps dbS c3Ops) dbS) 1 = 2 :=
  ⟨rfl, rfl⟩

/-- **C3 (amended)** — `submit_rma_request` for a sale that already has an
RMA in a non-terminal (not REJECTED/CANCELLED/COMPLETED) status fails with
the conflict error and, the error being raised before the insert, creates
no new RmaRequest row (no new state is produced).  The blanket "at any
time" invariant does not hold because `process_refund` can move a
CANCELLED RMA back to PROCESSING. -/
theorem C3_submit_guard (db : DB) (sale_id user_id : Nat) (sale : Sale)
    (existing : RmaRequest) (reason description : String) (items : List ItemInput)
    (photo_urls : List String) (now : Int)
    (hs : db.sales.find? (fun s => s.id == sale_id && s.user_id == user_id) = some sale)
    (hst : sale.status = "COMPLETED")
    (hact : activeRmaFor db sale_id = some existing) :
    submit_rma_request db sale_id user_id reason items description photo_urls now =
      .error ("An active RMA already exists for this sale: "
        ++ pyStr existing.rma_number) := by
  simp [submit_rma_request, hs, hst, hact]

/-- Witness for the amended C3 on `dbW` (RMA 1 for sale 1 is PROCESSING). -/
theorem C3_submit_guard_witness :
    submit_rma_request dbW 1 7 "again" [⟨1, 1, 2, ""⟩] "" [] 5 =
      .error "An active RMA already exists for this sale: RMA-20260101-0001" :=
  C3_submit_guard dbW 1 7 _ _ "again" "" [⟨1, 1, 2, ""⟩] [] 5 rfl rfl rfl

/-- **C8 (counterexample)** — REJECTED is a terminal status, yet cancelling
a freshly REJECTED RMA succeeds: `cancel_rma` blocks only COMPLETED and
CANCELLED. -/
theorem C8_counterexample :
    rmaStatusOf (okState (runOps dbS c8PreOps) dbS) 1 = some "REJECTED" ∧
    exceptIsOk (runOps dbS c8Ops) = true ∧
    rmaStatusOf (okState (runOps dbS c8Ops) dbS) 1 = some "CANCELLED" :=
  ⟨rfl, rfl, rfl⟩

/-- **C8 (amended)** — `cancel_rma` fails (with the invalid-state error,
raised before any write, so the RMA is unchanged) exactly when the status
is COMPLETED or CANCELLED; from every other status — including the
terminal REJECTED — it succeeds and sets the status to CANCELLED. -/
theorem C8_cancel_guard (db : DB) (rma_id : Nat) (rma : RmaRequest)
    (actor reason : String) (now : Int)
    (hr : rmaById db rma_id = some rma) :
    ((rma.status = "COMPLETED" ∨ rma.status = "CANCELLED") →
      cancel_rma db rma_id actor reason now =
        .error ("Cannot cancel RMA with status: " ++ rma.status)) ∧
    (rma.status ≠ "COMPLETED" → rma.status ≠ "CANCELLED" →
      ∃ db', cancel_rma db rma_id actor reason now = .ok db' ∧
        rmaStatusOf db' rma_id = some "CANCELLED") := by
  constructor
  · intro h
    rcases h with h | h <;> simp [cancel_rma, hr, h]
  · intro h1 h2
    have hok : cancel_rma db rma_id actor reason now =
        .ok (logActivity
          (updateRmas db rma_id
            (fun r => { r with status := "CANCELLED", closed_at := some now }))
          rma_id "CANCELLED" (some rma.status) (some "CANCELLED") actor
          ("RMA cancelled. " ++ reason)) := by
      simp [cancel_rma, hr, h1, h2]
    refine ⟨_, hok, ?_⟩
    unfold rmaStatusOf
    have hproj : rmaById (logActivity
        (updateRmas db rma_id
          (fun r => { r with status := "CANCELLED", closed_at := some now }))
        rma_id "CANCELLED" (some rma.status) (some "CANCELLED") actor
        ("RMA cancelled. " ++ reason)) rma_id =
        rmaById (updateRmas db rma_id
          (fun r => { r with status := "CANCELLED", closed_at := some now })) rma_id := rfl
    rw [hproj, rmaById_self_update db rma_id rma
      (fun r => { r with status := "CANCELLED", closed_at := some now })
      (fun r => rfl) hr]
    rfl

/-- Witness for the amended C8 on `dbW`: the COMPLETED RMA 8 cannot be
cancelled; the APPROVED RMA 7 can. -/
theorem C8_cancel_guard_witness :
    (cancel_rma dbW 8 "customer" "" 5 =
      .error "Cannot cancel RMA with status: COMPLETED") ∧
    (∃ db', cancel_rma dbW 7 "customer" "" 5 = .ok db' ∧
      rmaStatusOf db' 7 = some "CANCELLED") :=
  ⟨(C8_cancel_guard dbW 8 _ "customer" "" 5 rfl).1 (Or.inl rfl),
   (C8_cancel_guard dbW 7 _ "customer" "" 5 rfl).2 (by decide) (by decide)⟩

/-- **C7 (counterexample)** — re-invoking a disposition handler after it
drove the RMA to COMPLETED does not fail: a second `process_replacement`
succeeds, creates a second replacement sale (three sales in total) and
decrements stock a second time (10 → 8 → 6). -/
theorem C7_counterexample :
    rmaStatusOf (okState (runOps dbS c7Ops1) dbS) 1 = some "COMPLETED" ∧
    stockOf (okState (runOps dbS c7Ops1) dbS) 1 = 8 ∧
    exceptIsOk (runOps dbS c7Ops2) = true ∧
    stockOf (okState (runOps dbS c7Ops2) dbS) 1 = 6 ∧
    (okState (runOps dbS c7Ops2) dbS).sales.length = 3 :=
  ⟨rfl, rfl, rfl, rfl, rfl⟩

/-- **C7 (amended)** — each disposition handler fails with an error when
the RMA's `disposition` does not match; `process_repair` additionally
fails unless the status is DISPOSITION, and `process_refund` fails when a
Refund row already exists (see C4).  The other handlers have no status
guard, so re-invocation with a matching disposition double-applies (see
the counterexample). -/
theorem C7_handler_guards :
    (∀ db rid rma actor notes, rmaById db rid = some rma →
      rma.disposition ≠ some "REPAIR" →
      process_repair db rid actor notes =
        .error ("RMA disposition must be REPAIR (current: "
          ++ pyStr rma.disposition ++ ")")) ∧
    (∀ db rid rma actor notes, rmaById db rid = some rma →
      rma.disposition = some "REPAIR" → rma.status ≠ "DISPOSITION" →
      process_repair db rid actor notes =
        .error "Repair already initiated or invalid status for initiation") ∧
    (∀ db rid rma amount_cents method actor, rmaById db rid = some rma →
      rma.disposition ≠ some "REFUND" →
      process_refund db rid amount_cents method actor =
        .error ("RMA disposition must be REFUND (current: "
          ++ pyStr rma.disposition ++ ")")) ∧
    (∀ db rid rma actor now, rmaById db rid = some rma →
      rma.disposition ≠ some "REPLACEMENT" →
      process_replacement db rid actor now =
        .error ("RMA disposition must be REPLACEMENT (current: "
          ++ pyStr rma.disposition ++ ")")) ∧
    (∀ db rid rma amount_cents actor now, rmaById db rid = some rma →
      rma.disposition ≠ some "STORE_CREDIT" →
      process_store_credit db rid amount_cents actor now =
        .error ("RMA disposition must be STORE_CREDIT (current: "
          ++ pyStr rma.disposition ++ ")")) ∧
    (∀ db rid rma actor notes now, rmaById db rid = some rma →
      rma.disposition ≠ some "REJECT" →
      process_rejection db rid actor notes now =
        .error ("RMA disposition must be REJECT (current: "
          ++ pyStr rma.disposition ++ ")")) := by
  refine ⟨?_, ?_, ?_, ?_, ?_, ?_⟩
  · intro db rid rma actor notes hr hd
    simp [process_repair, hr, hd]
  · intro db rid rma actor notes hr hd hst
    simp [process_repair, hr, hd, hst]
  · intro db rid rma amount_cents method actor hr hd
    simp [process_refund, hr, hd]
  · intro db rid rma actor now hr hd
    simp [process_replacement, hr, hd]
  · intro db rid rma amount_cents actor now hr hd
    simp [process_store_credit, hr, hd]
  · intro db rid rma actor notes now hr hd
    simp [process_rejection, hr, hd]

/-- Witness for the amended C7 on `dbW` (RMA 1: REFUND/PROCESSING, RMA 3:
REPAIR/DISPOSITION, RMA 4: REPAIR/PROCESSING). -/
theorem C7_handler_guards_witness :
    (process_repair dbW 1 "system" "" =
      .error "RMA disposition must be REPAIR (current: REFUND)") ∧
    (process_repair dbW 4 "system" "" =
      .error "Repair already initiated or invalid status for initiation") ∧
    (process_refund dbW 3 100 "ORIGINAL_PAYMENT" "system" =
      .error "RMA disposition must be REFUND (current: REPAIR)") ∧
    (process_replacement dbW 1 "system" 5 =
      .error "RMA disposition must be REPLACEMENT (current: REFUND)") ∧
    (process_store_credit dbW 1 100 "system" 5 =
      .error "RMA disposition must be STORE_CREDIT (current: REFUND)") ∧
    (process_rejection dbW 1 "system" "" 5 =
      .error "RMA disposition must be REJECT (current: REFUND)") :=
  ⟨C7_handler_guards.1 dbW 1 _ "system" "" rfl (by decide),
   C7_handler_guards.2.1 dbW 4 _ "system" "" rfl rfl (by decide),
   C7_handler_guards.2.2.1 dbW 3 _ 100 "ORIGINAL_PAYMENT" "system" rfl (by decide),
   C7_handler_guards.2.2.2.1 dbW 1 _ "system" 5 rfl (by decide),
   C7_handler_guards.2.2.2.2.1 dbW 1 _ 100 "system" 5 rfl (by decide),
   C7_handler_guards.2.2.2.2.2 dbW 1 _ "system" "" 5 rfl (by decide)⟩

@[simp] theorem rmaById_logActivity (db : DB) (i : Nat) (a : String)
    (o n : Option String) (ac nt : String) (m : List (String × String)) (j : Nat) :
    rmaById (logActivity db i a o n ac nt m) j = rmaById db j := rfl

/-- **C5 (counterexample)** — at the exact warranty boundary
(now = sale time + 30 days) the spec's eligibility ("sale time + 30 days ≥
now") holds, yet `validate` with approve=true returns False and REJECTED:
the code's `_check_warranty` uses the strict `now < sale_time + 30 days`. -/
theorem C5_counterexample :
    specEligible 0 (30 * 86400) = true ∧
    okResFst (validate_rma_request dbC5 1 "admin" true "" true true
      (30 * 86400) "20260130") true = false ∧
    rmaStatusOf (okResSnd (validate_rma_request dbC5 1 "admin" true "" true true
      (30 * 86400) "20260130") dbC5) 1 = some "REJECTED" :=
  ⟨rfl, rfl, rfl⟩

/-- **C5 (amended)** — for every SUBMITTED RMA (default checks on),
validate yields APPROVED iff approve is true and the RMA is eligible,
where eligibility is the STRICT warranty-window check
(now < sale time + 30 days) AND the purchase-date check (sale time < now);
the computed warranty_valid and is_eligible flags are persisted.  In
particular a sale completed 40 days before validation is rejected with
warranty_valid=false (see the witness). -/
theorem C5_validate_outcome (db : DB) (rma_id : Nat) (rma : RmaRequest) (sale : Sale)
    (t : Int) (validated_by : String) (approve : Bool) (validation_notes : String)
    (now : Int) (today : String) (res : Bool) (db' : DB)
    (hr : rmaById db rma_id = some rma)
    (hst : rma.status = "SUBMITTED")
    (hs : saleById db rma.sale_id = some sale)
    (ht : sale.sale_time = some t)
    (h : validate_rma_request db rma_id validated_by approve validation_notes
          true true now today = .ok (res, db')) :
    res = (approve && (decide (now < t + warrantyWindow) && decide (t < now))) ∧
    rmaStatusOf db' rma_id =
      some (if approve && (decide (now < t + warrantyWindow) && decide (t < now))
            then "APPROVED" else "REJECTED") ∧
    warrantyValidOf db' rma_id = some (some (decide (now < t + warrantyWindow))) ∧
    isEligibleOf db' rma_id =
      some (some (decide (now < t + warrantyWindow) && decide (t < now))) := by
  simp only [validate_rma_request, hr, hst, bne_self_eq_false, Bool.false_eq_true,
    if_false, reduceIte, checkWarranty, checkPurchaseDate, hs, ht, if_true,
    Except.ok.injEq, Prod.mk.injEq] at h
  obtain ⟨hres, hdb⟩ := h
  subst hdb
  have hb : rma.id = rma_id := by
    have := List.find?_some (p := fun r : RmaRequest => r.id == rma_id) hr
    simpa using this
  refine ⟨hres.symm, ?_, ?_, ?_⟩
  · unfold rmaStatusOf
    rw [rmaById_logActivity, rmaById_updateRmas, hr]
    · simp [hb, validateUpd]
    · intro r
      rfl
  · unfold warrantyValidOf
    rw [rmaById_logActivity, rmaById_updateRmas, hr]
    · simp [hb, validateUpd]
    · intro r
      rfl
  · unfold isEligibleOf
    rw [rmaById_logActivity, rmaById_updateRmas, hr]
    · simp [hb, validateUpd]
    · intro r
      rfl

/-- Witness for the amended C5 (scenario C of the spec): a sale from 40
days ago (now = 3456000 s), approve=true → result False, REJECTED,
warranty_valid=false persisted. -/
theorem C5_validate_outcome_witness :
    okResFst (validate_rma_request dbC5 1 "admin" true "" true true
        3456000 "20260210") true = false ∧
    rmaStatusOf (okResSnd (validate_rma_request dbC5 1 "admin" true "" true true
        3456000 "20260210") dbC5) 1 = some "REJECTED" ∧
    warrantyValidOf (okResSnd (validate_rma_request dbC5 1 "admin" true "" true true
        3456000 "20260210") dbC5) 1 = some (some false) ∧
    isEligibleOf (okResSnd (validate_rma_request dbC5 1 "admin" true "" true true
        3456000 "20260210") dbC5) 1 = some (some false) :=
  C5_validate_outcome dbC5 1 _ _ 0 "admin" true "" 3456000 "20260210"
    (okResFst (validate_rma_request dbC5 1 "admin" true "" true true
      3456000 "20260210") true)
    (okResSnd (validate_rma_request dbC5 1 "admin" true "" true true
      3456000 "20260210") dbC5)
    rfl rfl rfl rfl rfl

theorem adjustInventory_rma_requests (db : DB) (rid : Nat) (d : Option String) :
    (adjustInventory db rid d).1.rma_requests = db.rma_requests := by
  unfold adjustInventory
  split_ifs <;> rfl

theorem updateMetrics_rma_requests (db : DB) (t : String) :
    (updateMetrics db t).rma_requests = db.rma_requests := by
  unfold updateMetrics
  split_ifs <;> rfl

theorem adjustInventory_activity_log (db : DB) (rid : Nat) (d : Option String) :
    (adjustInventory db rid d).1.activity_log = db.activity_log := by
  unfold adjustInventory
  split_ifs <;> rfl

theorem updateMetrics_activity_log (db : DB) (t : String) :
    (updateMetrics db t).activity_log = db.activity_log := by
  unfold updateMetrics
  split_ifs <;> rfl

theorem mem_of_updateRmasL {l : List RmaRequest} {i : Nat}
    {f : RmaRequest → RmaRequest} {r' : RmaRequest} (h : r' ∈ updateRmasL l i f) :
    ∃ r0, r0 ∈ l ∧ r' = (if r0.id == i then f r0 else r0) := by
  unfold updateRmasL at h
  obtain ⟨r0, h0, hm⟩ := List.mem_map.mp h
  exact ⟨r0, h0, hm.symm⟩

theorem id_inj_of_nodup {l : List RmaRequest}
    (hnd : (l.map (fun r => r.id)).Nodup) :
    ∀ a ∈ l, ∀ b ∈ l, a.id = b.id → a = b := by
  intro a ha b hb hab
  exact List.inj_on_of_nodup_map hnd ha hb hab

theorem eq_found_of_nodup {l : List RmaRequest}
    (hnd : (l.map (fun r => r.id)).Nodup) {i : Nat} {m r : RmaRequest}
    (hfind : l.find? (fun r => r.id == i) = some m) (hr : r ∈ l) (hid : r.id = i) :
    r = m := by
  have hm : m ∈ l := List.mem_of_find?_eq_some hfind
  have hmi : m.id = i := by
    simpa using List.find?_some hfind
  exact id_inj_of_nodup hnd r hr m hm (by rw [hid, hmi])

theorem optStrFalsy_false_isSome {o : Option String}
    (h : optStrFalsy o = false) : o.isSome = true := by
  cases o with
  | none => simp [optStrFalsy] at h
  | some s => rfl

theorem C6prop_refl (l : List RmaRequest)
    (hnd : (l.map (fun r => r.id)).Nodup) : C6prop l l := by
  constructor
  · intro r' h' r h hid
    have heq : r = r' := id_inj_of_nodup hnd r h r' h' hid
    subst heq
    exact ⟨Or.inl rfl, fun h1 h2 => absurd h2 h1⟩
  · intro r' h' hno
    exact absurd rfl (hno r' h')

theorem C6prop_submit (l : List RmaRequest) (newRma : RmaRequest)
    (hnd : (l.map (fun r => r.id)).Nodup)
    (hfresh : ∀ r ∈ l, r.id ≠ newRma.id)
    (hnum : newRma.rma_number = none) (hstatus : newRma.status = "SUBMITTED") :
    C6prop l (newRma :: l) := by
  constructor
  · intro r' h' r h hidr
    cases h' with
    | head => exact absurd hidr (hfresh r h)
    | tail _ h'' =>
      have heq : r = r' := id_inj_of_nodup hnd r h r' h'' hidr
      subst heq
      exact ⟨Or.inl rfl, fun h1 h2 => absurd h2 h1⟩
  · intro r' h' hno
    cases h' with
    | head => exact ⟨hnum, hstatus⟩
    | tail _ h'' => exact absurd rfl (hno r' h'')

theorem C6prop_update_at (l : List RmaRequest) (i : Nat) (m : RmaRequest)
    (hnd : (l.map (fun r => r.id)).Nodup)
    (hfind : l.find? (fun r => r.id == i) = some m)
    (f : RmaRequest → RmaRequest) (hid : ∀ r, (f r).id = r.id)
    (hdisj : (f m).rma_number = m.rma_number ∨
      (optStrFalsy m.rma_number = true ∧ m.status = "SUBMITTED" ∧
       (f m).status = "APPROVED" ∧ (f m).rma_number.isSome = true))
    (htrans : m.status ≠ "APPROVED" → (f m).status = "APPROVED" →
      (f m).rma_number.isSome = true) :
    C6prop l (updateRmasL l i f) := by
  constructor
  · intro r' h' r h hidr
    obtain ⟨r0, h0, hr0⟩ := mem_of_updateRmasL h'
    by_cases hc : (r0.id == i) = true
    · rw [if_pos hc] at hr0
      have hr0i : r0.id = i := by simpa using hc
      have h0m : r0 = m := eq_found_of_nodup hnd hfind h0 hr0i
      have hrr : r = r0 := by
        apply id_inj_of_nodup hnd r h r0 h0
        rw [hidr, hr0, hid r0]
      subst hr0
      subst h0m
      subst hrr
      exact ⟨hdisj, htrans⟩
    · rw [if_neg hc] at hr0
      subst hr0
      have heq : r = r' := id_inj_of_nodup hnd r h r' h0 hidr
      subst heq
      exact ⟨Or.inl rfl, fun h1 h2 => absurd h2 h1⟩
  · intro r' h' hno
    obtain ⟨r0, h0, hr0⟩ := mem_of_updateRmasL h'
    have hideq : r0.id = r'.id := by
      rw [hr0]
      split
      · exact (hid r0).symm
      · rfl
    exact absurd hideq (hno r0 h0)

theorem updateRmas_rma_requests (db : DB) (i : Nat) (f : RmaRequest → RmaRequest) :
    (updateRmas db i f).rma_requests = updateRmasL db.rma_requests i f := rfl

theorem validateUpd_C6_disj (ns vn vb : String) (now : Int) (ie wv pv : Bool)
    (g : String) (m : RmaRequest) (hsub : m.status = "SUBMITTED") :
    (validateUpd ns vn vb now ie wv pv
        (if (ns == "APPROVED") && optStrFalsy m.rma_number then some g else none)
        m).rma_number = m.rma_number ∨
      (optStrFalsy m.rma_number = true ∧ m.status = "SUBMITTED" ∧
       (validateUpd ns vn vb now ie wv pv
          (if (ns == "APPROVED") && optStrFalsy m.rma_number then some g else none)
          m).status = "APPROVED" ∧
       (validateUpd ns vn vb now ie wv pv
          (if (ns == "APPROVED") && optStrFalsy m.rma_number then some g else none)
          m).rma_number.isSome = true) := by
  by_cases hc : ((ns == "APPROVED") && optStrFalsy m.rma_number) = true
  · right
    have h12 := hc
    rw [Bool.and_eq_true] at h12
    obtain ⟨h1, h2⟩ := h12
    have hns : ns = "APPROVED" := by simpa using h1
    refine ⟨h2, hsub, ?_, ?_⟩
    · simp only [validateUpd]
      exact hns
    · simp only [validateUpd, hc, if_true]
      rfl
  · left
    simp only [validateUpd]
    rw [if_neg hc]

theorem validateUpd_C6_trans (ns vn vb : String) (now : Int) (ie wv pv : Bool)
    (g : String) (m : RmaRequest)
    (h2 : (validateUpd ns vn vb now ie wv pv
      (if (ns == "APPROVED") && optStrFalsy m.rma_number then some g else none)
      m).status = "APPROVED") :
    (validateUpd ns vn vb now ie wv pv
      (if (ns == "APPROVED") && optStrFalsy m.rma_number then some g else none)
      m).rma_number.isSome = true := by
  have hns : ns = "APPROVED" := h2
  by_cases hfal : optStrFalsy m.rma_number = true
  · have hc : ((ns == "APPROVED") && optStrFalsy m.rma_number) = true := by
      rw [hns, hfal]
      rfl
    simp only [validateUpd, hc, if_true]
    rfl
  · have hfal' : optStrFalsy m.rma_number = false := by
      revert hfal
      cases optStrFalsy m.rma_number <;> simp
    simp only [validateUpd]
    rw [if_neg (by rw [hfal']; simp :
      ¬(((ns == "APPROVED") && optStrFalsy m.rma_number) = true))]
    exact optStrFalsy_false_isSome hfal'

/-- **C6** — For every RMA and every operation: `rma_number` is unset from
submission until the first transition to APPROVED, is assigned exactly at
that transition (validate, SUBMITTED → APPROVED), and no later operation
ever changes it: every transition either preserves a row's `rma_number` or
is that first approval, any transition into APPROVED leaves a set number,
and rows created by submit start unnumbered. -/
theorem C6_rma_number_discipline (op : Op) (db db' : DB) (hwf : db.WF)
    (h : op.apply db = .ok db') :
    C6prop db.rma_requests db'.rma_requests := by
  obtain ⟨hnd, -, -, -, hbound, -, -⟩ := hwf
  cases op with
  | submit sid uid r its d ph now =>
    replace h : (submit_rma_request db sid uid r its d ph now).map Prod.snd
        = Except.ok db' := h
    cases hs : db.sales.find? (fun s => s.id == sid && s.user_id == uid) with
    | none =>
      simp only [submit_rma_request, hs, Except.map] at h
      simp at h
    | some sale =>
      simp only [submit_rma_request, hs] at h
      split at h
      · simp [Except.map] at h
      · cases hact : activeRmaFor db sid with
        | some existing =>
          simp only [hact, Except.map] at h
          simp at h
        | none =>
          simp only [hact, Except.map, Except.ok.injEq] at h
          subst h
          simp only [logActivity_rma_requests]
          exact C6prop_submit _ _ hnd
            (fun r0 hr0 => Nat.ne_of_lt (hbound r0 hr0)) rfl rfl
  | validate rid vb ap vn cw cp now today =>
    replace h : (validate_rma_request db rid vb ap vn cw cp now today).map Prod.snd
        = Except.ok db' := h
    cases hr : rmaById db rid with
    | none =>
      simp only [validate_rma_request, hr, Except.map] at h
      simp at h
    | some m =>
      simp only [validate_rma_request, hr] at h
      split at h
      · simp [Except.map] at h
      · rename_i hguard
        have hstsub : m.status = "SUBMITTED" := by
          simpa using hguard
        simp only [Except.map, Except.ok.injEq] at h
        subst h
        simp only [logActivity_rma_requests, updateRmas_rma_requests]
        refine C6prop_update_at _ rid m hnd hr _ (fun r => rfl) ?_ ?_
        · exact validateUpd_C6_disj _ vn vb now _ _ _ _ m hstsub
        · intro h1 h2
          exact validateUpd_C6_trans _ vn vb now _ _ _ _ m h2
  | updateShipping rid c t a now =>
    replace h : update_shipping_info db rid c t a now = Except.ok db' := h
    cases hr : rmaById db rid with
    | none =>
      simp only [update_shipping_info, hr] at h
      simp at h
    | some m =>
      simp only [update_shipping_info, hr] at h
      split at h
      · simp at h
      · simp only [Except.ok.injEq] at h
        subst h
        simp only [logActivity_rma_requests, updateRmas_rma_requests]
        exact C6prop_update_at _ rid m hnd hr _ (fun r => rfl) (Or.inl rfl)
          (fun _ h2 => by simp at h2)
  | markReceived rid a now =>
    replace h : mark_received db rid a now = Except.ok db' := h
    cases hr : rmaById db rid with
    | none =>
      simp only [mark_received, hr] at h
      simp at h
    | some m =>
      simp only [mark_received, hr] at h
      split at h
      · simp at h
      · simp only [Except.ok.injEq] at h
        subst h
        simp only [logActivity_rma_requests, updateRmas_rma_requests]
        exact C6prop_update_at _ rid m hnd hr _ (fun r => rfl) (Or.inl rfl)
          (fun _ h2 => by simp at h2)
  | startInspection rid ib =>
    replace h : start_inspection db rid ib = Except.ok db' := h
    cases hr : rmaById db rid with
    | none =>
      simp only [start_inspection, hr] at h
      simp at h
    | some m =>
      simp only [start_inspection, hr] at h
      split at h
      · simp at h
      · simp only [Except.ok.injEq] at h
        subst h
        simp only [logActivity_rma_requests, updateRmas_rma_requests]
        exact C6prop_update_at _ rid m hnd hr _ (fun r => rfl) (Or.inl rfl)
          (fun _ h2 => by simp at h2)
  | completeInspection rid res n ib now =>
    replace h : complete_inspection db rid res n ib now = Except.ok db' := h
    cases hr : rmaById db rid with
    | none =>
      simp only [complete_inspection, hr] at h
      simp at h
    | some m =>
      simp only [complete_inspection, hr] at h
      split at h
      · simp at h
      · split at h
        · simp at h
        · simp only [Except.ok.injEq] at h
          subst h
          simp only [logActivity_rma_requests, updateRmas_rma_requests]
          exact C6prop_update_at _ rid m hnd hr _ (fun r => rfl) (Or.inl rfl)
            (fun _ h2 => by simp at h2)
  | makeDisposition rid dsp rsn by_ now =>
    replace h : make_disposition db rid dsp rsn by_ now = Except.ok db' := h
    cases hr : rmaById db rid with
    | none =>
      simp only [make_disposition, hr] at h
      simp at h
    | some m =>
      simp only [make_disposition, hr] at h
      split at h
      · simp at h
      · split at h
        · simp at h
        · simp only [Except.ok.injEq] at h
          subst h
          simp only [logActivity_rma_requests, updateRmas_rma_requests]
          refine C6prop_update_at _ rid m hnd hr _ (fun r => rfl) (Or.inl rfl) ?_
          intro h1 h2
          have h3 : (if (dsp == "REFUND" || dsp == "REPLACEMENT"
              || dsp == "STORE_CREDIT") = true then "PROCESSING" else "DISPOSITION")
              = "APPROVED" := h2
          split at h3 <;> simp at h3
  | processRefund rid amt mth a =>
    replace h : (process_refund db rid amt mth a).map Prod.snd = Except.ok db' := h
    cases hr : rmaById db rid with
    | none =>
      simp only [process_refund, hr, Except.map] at h
      simp at h
    | some m =>
      simp only [process_refund, hr] at h
      split at h
      · simp [Except.map] at h
      · cases hf : refundByRmaId db rid with
        | some rf =>
          simp only [hf, Except.map] at h
          simp at h
        | none =>
          simp only [hf, Except.map, Except.ok.injEq] at h
          subst h
          simp only [logActivity_rma_requests, updateRmas_rma_requests]
          exact C6prop_update_at _ rid m hnd hr _ (fun r => rfl) (Or.inl rfl)
            (fun _ h2 => by simp at h2)
  | completeRefund fid ref s em now =>
    replace h : complete_refund db fid ref s em now = Except.ok db' := h
    cases hf : refundById db fid with
    | none =>
      simp only [complete_refund, hf] at h
      simp at h
    | some rf =>
      simp only [complete_refund, hf] at h
      cases hr : rmaById db rf.rma_id with
      | none =>
        simp only [hr] at h
        simp at h
      | some m =>
        simp only [hr] at h
        split at h
        · simp only [Except.ok.injEq] at h
          subst h
          simp only [notifyCustomer, logActivity_rma_requests,
            adjustInventory_rma_requests, updateSales_rma_requests,
            updateRmas_rma_requests]
          exact C6prop_update_at _ rf.rma_id m hnd hr _ (fun r => rfl) (Or.inl rfl)
            (fun _ h2 => by simp at h2)
        · simp only [Except.ok.injEq] at h
          subst h
          simp only [logActivity_rma_requests]
          exact C6prop_refl _ hnd
  | closeRma rid a n now today =>
    replace h : close_rma db rid a n now today = Except.ok db' := h
    cases hr : rmaById db rid with
    | none =>
      simp only [close_rma, hr] at h
      simp at h
    | some m =>
      simp only [close_rma, hr] at h
      split at h
      · simp only [Except.ok.injEq] at h
        subst h
        exact C6prop_refl _ hnd
      · simp only [Except.ok.injEq] at h
        subst h
        simp only [updateMetrics_rma_requests, logActivity_rma_requests,
          updateRmas_rma_requests]
        exact C6prop_update_at _ rid m hnd hr _ (fun r => rfl) (Or.inl rfl)
          (fun _ h2 => by simp at h2)
  | processReplacement rid a now =>
    replace h : (process_replacement db rid a now).map Prod.snd = Except.ok db' := h
    cases hr : rmaById db rid with
    | none =>
      simp only [process_replacement, hr, Except.map] at h
      simp at h
    | some m =>
      simp only [process_replacement, hr] at h
      split at h
      · simp [Except.map] at h
      · cases hloop : replacementLoop
            { db with
              sales := { id := db.next_sale_id, user_id := m.user_id,
                         status := "COMPLETED", total_cents := 0,
                         sale_time := none } :: db.sales,
              next_sale_id := db.next_sale_id + 1 }
            db.next_sale_id (itemsOf db rid) with
        | error e =>
          simp only [hloop, Except.map] at h
          simp at h
        | ok db2 =>
          simp only [hloop, Except.map, Except.ok.injEq] at h
          subst h
          have hrm : db2.rma_requests = db.rma_requests :=
            (replacementLoop_ok _ _ _ _ hloop).2.2.1
          simp only [notifyCustomer, logActivity_rma_requests,
            updateRmas_rma_requests, hrm]
          exact C6prop_update_at _ rid m hnd hr _ (fun r => rfl) (Or.inl rfl)
            (fun _ h2 => by simp at h2)
  | processStoreCredit rid amt a now =>
    replace h : process_store_credit db rid amt a now = Except.ok db' := h
    cases hr : rmaById db rid with
    | none =>
      simp only [process_store_credit, hr] at h
      simp at h
    | some m =>
      simp only [process_store_credit, hr] at h
      split at h
      · simp at h
      · simp only [Except.ok.injEq] at h
        subst h
        simp only [notifyCustomer, logActivity_rma_requests,
          updateRmas_rma_requests, adjustInventory_rma_requests]
        exact C6prop_update_at _ rid m hnd hr _ (fun r => rfl) (Or.inl rfl)
          (fun _ h2 => by simp at h2)
  | processRepair rid a n =>
    replace h : process_repair db rid a n = Except.ok db' := h
    cases hr : rmaById db rid with
    | none =>
      simp only [process_repair, hr] at h
      simp at h
    | some m =>
      simp only [process_repair, hr] at h
      split at h
      · simp at h
      · split at h
        · simp at h
        · simp only [Except.ok.injEq] at h
          subst h
          simp only [logActivity_rma_requests, updateRmas_rma_requests]
          exact C6prop_update_at _ rid m hnd hr _ (fun r => rfl) (Or.inl rfl)
            (fun _ h2 => by simp at h2)
  | completeRepair rid a n now =>
    replace h : complete_repair db rid a n now = Except.ok db' := h
    cases hr : rmaById db rid with
    | none =>
      simp only [complete_repair, hr] at h
      simp at h
    | some m =>
      simp only [complete_repair, hr] at h
      split at h
      · simp at h
      · simp only [Except.ok.injEq] at h
        subst h
        simp only [notifyCustomer, logActivity_rma_requests, updateRmas_rma_requests]
        exact C6prop_update_at _ rid m hnd hr _ (fun r => rfl) (Or.inl rfl)
          (fun _ h2 => by simp at h2)
  | processRejection rid a n now =>
    replace h : process_rejection db rid a n now = Except.ok db' := h
    cases hr : rmaById db rid with
    | none =>
      simp only [process_rejection, hr] at h
      simp at h
    | some m =>
      simp only [process_rejection, hr] at h
      split at h
      · simp at h
      · simp only [Except.ok.injEq] at h
        subst h
        simp only [notifyCustomer, logActivity_rma_requests,
          updateRmas_rma_requests, adjustInventory_rma_requests]
        exact C6prop_update_at _ rid m hnd hr _ (fun r => rfl) (Or.inl rfl)
          (fun _ h2 => by simp at h2)
  | cancelRma rid a rsn now =>
    replace h : cancel_rma db rid a rsn now = Except.ok db' := h
    cases hr : rmaById db rid with
    | none =>
      simp only [cancel_rma, hr] at h
      simp at h
    | some m =>
      simp only [cancel_rma, hr] at h
      split at h
      · simp at h
      · simp only [Except.ok.injEq] at h
        subst h
        simp only [logActivity_rma_requests, updateRmas_rma_requests]
        exact C6prop_update_at _ rid m hnd hr _ (fun r => rfl) (Or.inl rfl)
          (fun _ h2 => by simp at h2)

/-- **C2 (counterexample)** — on an RMA in PROCESSING (the normal state
after make_disposition(REPLACEMENT)), `process_replacement` appends TWO
activity rows (the transition row plus a CUSTOMER_NOTIFIED row), and the
transition row records the hardcoded `old_status="DISPOSITION"`, not the
actual pre-transition status PROCESSING. -/
theorem C2_counterexample :
    rmaStatusOf dbW 6 = some "PROCESSING" ∧
    (okResSnd (process_replacement dbW 6 "system" 5) dbW).activity_log.length =
      dbW.activity_log.length + 2 ∧
    logShapes (okResSnd (process_replacement dbW 6 "system" 5) dbW) =
      (6, "CUSTOMER_NOTIFIED", none, none) ::
        (6, "REPLACEMENT_PROCESSED", some "DISPOSITION", some "COMPLETED") ::
        logShapes dbW :=
  ⟨rfl, rfl, rfl⟩

/-- **C2 (amended)** — Every successful transition appends the following
audit rows (`logShape` = (rma_id, action, old_status, new_status), newest
first).  submit, validate, update_shipping, mark_received,
start_inspection, complete_inspection, process_repair, close (when not
already COMPLETED) and cancel append exactly one row whose old_status is
the RMA's actual pre-transition status (close on an already-COMPLETED RMA
appends nothing); make_disposition and process_refund append exactly one
row but hardcode old_status ("INSPECTED" resp. "DISPOSITION"), which can
differ from the actual pre-status; the completing handlers
(complete_refund on success, process_replacement, process_store_credit,
complete_repair, process_rejection) append a CUSTOMER_NOTIFIED row in
addition to their transition row, whose old_status is likewise hardcoded;
complete_refund on failure appends one PROCESSING→PROCESSING row. -/
theorem C2_activity_log_per_transition :
    (∀ db sid uid reason items desc photos now rid db',
      submit_rma_request db sid uid reason items desc photos now = .ok (rid, db') →
      logShapes db' = (rid, "SUBMITTED", none, some "SUBMITTED") :: logShapes db) ∧
    (∀ db rid vb approve vn cw cp now today res db' rma,
      rmaById db rid = some rma →
      validate_rma_request db rid vb approve vn cw cp now today = .ok (res, db') →
      rma.status = "SUBMITTED" ∧
      logShapes db' = (rid, "VALIDATED", some rma.status,
        some (if res then "APPROVED" else "REJECTED")) :: logShapes db) ∧
    (∀ db rid c t a now db' rma,
      rmaById db rid = some rma →
      update_shipping_info db rid c t a now = .ok db' →
      (rma.status = "APPROVED" ∨ rma.status = "SHIPPING") ∧
      logShapes db' = (rid, "SHIPPING_UPDATED", some rma.status, some "SHIPPING")
        :: logShapes db) ∧
    (∀ db rid a now db' rma,
      rmaById db rid = some rma →
      mark_received db rid a now = .ok db' →
      rma.status = "SHIPPING" ∧
      logShapes db' = (rid, "RECEIVED", some rma.status, some "RECEIVED")
        :: logShapes db) ∧
    (∀ db rid ib db' rma,
      rmaById db rid = some rma →
      start_inspection db rid ib = .ok db' →
      rma.status = "RECEIVED" ∧
      logShapes db' = (rid, "INSPECTION_STARTED", some rma.status, some "INSPECTING")
        :: logShapes db) ∧
    (∀ db rid res n ib now db' rma,
      rmaById db rid = some rma →
      complete_inspection db rid res n ib now = .ok db' →
      rma.status = "INSPECTING" ∧
      logShapes db' = (rid, "INSPECTION_COMPLETED", some rma.status, some "INSPECTED")
        :: logShapes db) ∧
    (∀ db rid dsp rsn by_ now db' rma,
      rmaById db rid = some rma →
      make_disposition db rid dsp rsn by_ now = .ok db' →
      (rma.status = "INSPECTED" ∨ rma.status = "DISPOSITION") ∧
      logShapes db' = (rid, "DISPOSITION_DECIDED", some "INSPECTED",
        some (if dsp == "REFUND" || dsp == "REPLACEMENT" || dsp == "STORE_CREDIT"
              then "PROCESSING" else "DISPOSITION")) :: logShapes db) ∧
    (∀ db rid amt mth a fid db',
      process_refund db rid amt mth a = .ok (fid, db') →
      logShapes db' = (rid, "REFUND_INITIATED", some "DISPOSITION", some "PROCESSING")
        :: logShapes db) ∧
    (∀ db fid ref em now db' rf,
      refundById db fid = some rf →
      complete_refund db fid ref true em now = .ok db' →
      logShapes db' = (rf.rma_id, "CUSTOMER_NOTIFIED", none, none) ::
        (rf.rma_id, "REFUND_COMPLETED", some "PROCESSING", some "COMPLETED")
        :: logShapes db) ∧
    (∀ db fid ref em now db' rf,
      refundById db fid = some rf →
      complete_refund db fid ref false em now = .ok db' →
      logShapes db' = (rf.rma_id, "REFUND_FAILED", some "PROCESSING", some "PROCESSING")
        :: logShapes db) ∧
    (∀ db rid a n now today db' rma,
      rmaById db rid = some rma →
      close_rma db rid a n now today = .ok db' →
      (rma.status = "COMPLETED" → db' = db) ∧
      (rma.status ≠ "COMPLETED" →
        logShapes db' = (rid, "CLOSED", some rma.status, some "COMPLETED")
          :: logShapes db)) ∧
    (∀ db rid a now sid db',
      process_replacement db rid a now = .ok (sid, db') →
      logShapes db' = (rid, "CUSTOMER_NOTIFIED", none, none) ::
        (rid, "REPLACEMENT_PROCESSED", some "DISPOSITION", some "COMPLETED")
        :: logShapes db) ∧
    (∀ db rid amt a now db',
      process_store_credit db rid amt a now = .ok db' →
      logShapes db' = (rid, "CUSTOMER_NOTIFIED", none, none) ::
        (rid, "STORE_CREDIT_ISSUED", some "DISPOSITION", some "COMPLETED")
        :: logShapes db) ∧
    (∀ db rid a n db' rma,
      rmaById db rid = some rma →
      process_repair db rid a n = .ok db' →
      rma.status = "DISPOSITION" ∧
      logShapes db' = (rid, "REPAIR_INITIATED", some rma.status, some "PROCESSING")
        :: logShapes db) ∧
    (∀ db rid a n now db',
      complete_repair db rid a n now = .ok db' →
      logShapes db' = (rid, "CUSTOMER_NOTIFIED", none, none) ::
        (rid, "REPAIR_COMPLETED", some "PROCESSING", some "COMPLETED")
        :: logShapes db) ∧
    (∀ db rid a n now db',
      process_rejection db rid a n now = .ok db' →
      logShapes db' = (rid, "CUSTOMER_NOTIFIED", none, none) ::
        (rid, "RETURN_REJECTED", some "DISPOSITION", some "COMPLETED")
        :: logShapes db) ∧
    (∀ db rid a rsn now db' rma,
      rmaById db rid = some rma →
      cancel_rma db rid a rsn now = .ok db' →
      (rma.status ≠ "COMPLETED" ∧ rma.status ≠ "CANCELLED") ∧
      logShapes db' = (rid, "CANCELLED", some rma.status, some "CANCELLED")
        :: logShapes db) := by
  refine ⟨?_, ?_, ?_, ?_, ?_, ?_, ?_, ?_, ?_, ?_, ?_, ?_, ?_, ?_, ?_, ?_, ?_⟩
  · intro db sid uid reason items desc photos now rid db' h
    cases hs : db.sales.find? (fun s => s.id == sid && s.user_id == uid) with
    | none =>
      simp only [submit_rma_request, hs] at h
      simp at h
    | some sale =>
      simp only [submit_rma_request, hs] at h
      split at h
      · simp at h
      · cases hact : activeRmaFor db sid with
        | some existing =>
          simp only [hact] at h
          simp at h
        | none =>
          simp only [hact, Except.ok.injEq, Prod.mk.injEq] at h
          obtain ⟨hrid, hdb⟩ := h
          subst hdb
          subst hrid
          simp [logShapes, logActivity, logShape]
  · intro db rid vb approve vn cw cp now today res db' rma hr h
    simp only [validate_rma_request, hr] at h
    split at h
    · simp at h
    · rename_i hguard
      have hst : rma.status = "SUBMITTED" := by simpa using hguard
      simp only [Except.ok.injEq, Prod.mk.injEq] at h
      obtain ⟨hres, hdb⟩ := h
      subst hdb
      subst hres
      refine ⟨hst, ?_⟩
      simp [logShapes, logActivity, logShape, hst]
  · intro db rid c t a now db' rma hr h
    simp only [update_shipping_info, hr] at h
    split at h
    · simp at h
    · rename_i hguard
      have hst : rma.status = "APPROVED" ∨ rma.status = "SHIPPING" :=
        or_iff_not_imp_left.mpr (by simpa using hguard)
      simp only [Except.ok.injEq] at h
      subst h
      exact ⟨hst, by simp [logShapes, logActivity, logShape]⟩
  · intro db rid a now db' rma hr h
    simp only [mark_received, hr] at h
    split at h
    · simp at h
    · rename_i hguard
      have hst : rma.status = "SHIPPING" := by simpa using hguard
      simp only [Except.ok.injEq] at h
      subst h
      exact ⟨hst, by simp [logShapes, logActivity, logShape, hst]⟩
  · intro db rid ib db' rma hr h
    simp only [start_inspection, hr] at h
    split at h
    · simp at h
    · rename_i hguard
      have hst : rma.status = "RECEIVED" := by simpa using hguard
      simp only [Except.ok.injEq] at h
      subst h
      exact ⟨hst, by simp [logShapes, logActivity, logShape, hst]⟩
  · intro db rid res n ib now db' rma hr h
    simp only [complete_inspection, hr] at h
    split at h
    · simp at h
    · rename_i hguard
      have hst : rma.status = "INSPECTING" := by simpa using hguard
      split at h
      · simp at h
      · simp only [Except.ok.injEq] at h
        subst h
        exact ⟨hst, by simp [logShapes, logActivity, logShape, hst]⟩
  · intro db rid dsp rsn by_ now db' rma hr h
    simp only [make_disposition, hr] at h
    split at h
    · simp at h
    · rename_i hguard
      have hst : rma.status = "INSPECTED" ∨ rma.status = "DISPOSITION" :=
        or_iff_not_imp_left.mpr (by simpa using hguard)
      split at h
      · simp at h
      · simp only [Except.ok.injEq] at h
        subst h
        exact ⟨hst, by simp [logShapes, logActivity, logShape]⟩
  · intro db rid amt mth a fid db' h
    cases hr : rmaById db rid with
    | none =>
      simp only [process_refund, hr] at h
      simp at h
    | some rma =>
      simp only [process_refund, hr] at h
      split at h
      · simp at h
      · cases hf : refundByRmaId db rid with
        | some rf =>
          simp only [hf] at h
          simp at h
        | none =>
          simp only [hf, Except.ok.injEq, Prod.mk.injEq] at h
          obtain ⟨hfid, hdb⟩ := h
          subst hdb
          simp [logShapes, logActivity, logShape]
  · intro db fid ref em now db' rf hf h
    simp only [complete_refund, hf] at h
    cases hr : rmaById db rf.rma_id with
    | none =>
      simp only [hr] at h
      simp at h
    | some m =>
      simp only [hr, if_true, if_false, Except.ok.injEq] at h
      subst h
      simp [logShapes, notifyCustomer, logActivity, logShape,
        adjustInventory_activity_log]
  · intro db fid ref em now db' rf hf h
    simp only [complete_refund, hf] at h
    cases hr : rmaById db rf.rma_id with
    | none =>
      simp only [hr] at h
      simp at h
    | some m =>
      simp only [hr, Bool.false_eq_true, if_true, if_false, Except.ok.injEq] at h
      subst h
      simp [logShapes, logActivity, logShape]
  · intro db rid a n now today db' rma hr h
    simp only [close_rma, hr] at h
    split at h
    · rename_i hguard
      have hst : rma.status = "COMPLETED" := by simpa using hguard
      simp only [Except.ok.injEq] at h
      refine ⟨fun _ => h.symm, fun hne => absurd hst hne⟩
    · rename_i hguard
      have hne : ¬rma.status = "COMPLETED" := by simpa using hguard
      simp only [Except.ok.injEq] at h
      subst h
      refine ⟨fun heq => absurd heq hne, fun _ => ?_⟩
      simp [logShapes, logActivity, logShape, updateMetrics_activity_log]
  · intro db rid a now sid db' h
    cases hr : rmaById db rid with
    | none =>
      simp only [process_replacement, hr] at h
      simp at h
    | some m =>
      simp only [process_replacement, hr] at h
      split at h
      · simp at h
      · cases hloop : replacementLoop
            { db with
              sales := { id := db.next_sale_id, user_id := m.user_id,
                         status := "COMPLETED", total_cents := 0,
                         sale_time := none } :: db.sales,
              next_sale_id := db.next_sale_id + 1 }
            db.next_sale_id (itemsOf db rid) with
        | error e =>
          simp only [hloop] at h
          simp at h
        | ok db2 =>
          simp only [hloop, Except.ok.injEq, Prod.mk.injEq] at h
          obtain ⟨hsid, hdb⟩ := h
          subst hdb
          have hlog : db2.activity_log = db.activity_log :=
            (replacementLoop_ok _ _ _ _ hloop).2.2.2.2
          simp [logShapes, notifyCustomer, logActivity, logShape, hlog]
  · intro db rid amt a now db' h
    cases hr : rmaById db rid with
    | none =>
      simp only [process_store_credit, hr] at h
      simp at h
    | some m =>
      simp only [process_store_credit, hr] at h
      split at h
      · simp at h
      · simp only [Except.ok.injEq] at h
        subst h
        simp [logShapes, notifyCustomer, logActivity, logShape,
          adjustInventory_activity_log]
  · intro db rid a n db' rma hr h
    simp only [process_repair, hr] at h
    split at h
    · simp at h
    · rename_i hguard
      split at h
      · simp at h
      · rename_i hguard2
        have hst : rma.status = "DISPOSITION" := by simpa using hguard2
        simp only [Except.ok.injEq] at h
        subst h
        exact ⟨hst, by simp [logShapes, logActivity, logShape, hst]⟩
  · intro db rid a n now db' h
    cases hr : rmaById db rid with
    | none =>
      simp only [complete_repair, hr] at h
      simp at h
    | some m =>
      simp only [complete_repair, hr] at h
      split at h
      · simp at h
      · simp only [Except.ok.injEq] at h
        subst h
        simp [logShapes, notifyCustomer, logActivity, logShape]
  · intro db rid a n now db' h
    cases hr : rmaById db rid with
    | none =>
      simp only [process_rejection, hr] at h
      simp at h
    | some m =>
      simp only [process_rejection, hr] at h
      split at h
      · simp at h
      · simp only [Except.ok.injEq] at h
        subst h
        simp [logShapes, notifyCustomer, logActivity, logShape,
          adjustInventory_activity_log]
  · intro db rid a rsn now db' rma hr h
    simp only [cancel_rma, hr] at h
    split at h
    · simp at h
    · rename_i hguard
      have hst : ¬rma.status = "COMPLETED" ∧ ¬rma.status = "CANCELLED" := by
        simpa using hguard
      simp only [Except.ok.injEq] at h
      subst h
      exact ⟨hst, by simp [logShapes, logActivity, logShape]⟩

/-- Witness for the amended C2: one concrete run of each operation on the
fixtures, with the appended audit rows as characterized. -/
theorem C2_activity_log_per_transition_witness :
    (logShapes (okResSnd (submit_rma_request dbS 1 7 "defective" [⟨1, 1, 2, "d"⟩]
        "" [] 5) dbS) = (1, "SUBMITTED", none, some "SUBMITTED") :: logShapes dbS) ∧
    (logShapes (okResSnd (validate_rma_request dbC5 1 "admin" true "" true true
        86400 "20260101") dbC5) =
      (1, "VALIDATED", some "SUBMITTED", some "APPROVED") :: logShapes dbC5) ∧
    (logShapes (okState (update_shipping_info dbW 7 "UPS" "1Z1" "u" 5) dbW) =
      (7, "SHIPPING_UPDATED", some "APPROVED", some "SHIPPING") :: logShapes dbW) ∧
    (logShapes (okState (mark_received dbW 9 "w" 5) dbW) =
      (9, "RECEIVED", some "SHIPPING", some "RECEIVED") :: logShapes dbW) ∧
    (logShapes (okState (start_inspection dbW 10 "QA") dbW) =
      (10, "INSPECTION_STARTED", some "RECEIVED", some "INSPECTING") :: logShapes dbW) ∧
    (logShapes (okState (complete_inspection dbW 11 "DEFECTIVE" "" "QA" 5) dbW) =
      (11, "INSPECTION_COMPLETED", some "INSPECTING", some "INSPECTED")
        :: logShapes dbW) ∧
    (logShapes (okState (make_disposition dbW 12 "REFUND" "" "wt" 5) dbW) =
      (12, "DISPOSITION_DECIDED", some "INSPECTED", some "PROCESSING")
        :: logShapes dbW) ∧
    (logShapes (okResSnd (process_refund dbW 13 100 "ORIGINAL_PAYMENT" "sys") dbW) =
      (13, "REFUND_INITIATED", some "DISPOSITION", some "PROCESSING")
        :: logShapes dbW) ∧
    (logShapes (okState (complete_refund dbW 1 "r" true "" 5) dbW) =
      (1, "CUSTOMER_NOTIFIED", none, none) ::
        (1, "REFUND_COMPLETED", some "PROCESSING", some "COMPLETED")
        :: logShapes dbW) ∧
    (logShapes (okState (complete_refund dbW 1 "r" false "oops" 5) dbW) =
      (1, "REFUND_FAILED", some "PROCESSING", some "PROCESSING") :: logShapes dbW) ∧
    (logShapes (okState (close_rma dbW 7 "sys" "" 5 "20260101") dbW) =
      (7, "CLOSED", some "APPROVED", some "COMPLETED") :: logShapes dbW) ∧
    (logShapes (okResSnd (process_replacement dbW 6 "sys" 5) dbW) =
      (6, "CUSTOMER_NOTIFIED", none, none) ::
        (6, "REPLACEMENT_PROCESSED", some "DISPOSITION", some "COMPLETED")
        :: logShapes dbW) ∧
    (logShapes (okState (process_store_credit dbW 2 500 "sys" 5) dbW) =
      (2, "CUSTOMER_NOTIFIED", none, none) ::
        (2, "STORE_CREDIT_ISSUED", some "DISPOSITION", some "COMPLETED")
        :: logShapes dbW) ∧
    (logShapes (okState (process_repair dbW 3 "sys" "") dbW) =
      (3, "REPAIR_INITIATED", some "DISPOSITION", some "PROCESSING")
        :: logShapes dbW) ∧
    (logShapes (okState (complete_repair dbW 4 "sys" "" 5) dbW) =
      (4, "CUSTOMER_NOTIFIED", none, none) ::
        (4, "REPAIR_COMPLETED", some "PROCESSING", some "COMPLETED")
        :: logShapes dbW) ∧
    (logShapes (okState (process_rejection dbW 5 "sys" "" 5) dbW) =
      (5, "CUSTOMER_NOTIFIED", none, none) ::
        (5, "RETURN_REJECTED", some "DISPOSITION", some "COMPLETED")
        :: logShapes dbW) ∧
    (logShapes (okState (cancel_rma dbW 7 "cust" "" 5) dbW) =
      (7, "CANCELLED", some "APPROVED", some "CANCELLED") :: logShapes dbW) := by
  obtain ⟨h1, h2, h3, h4, h5, h6, h7, h8, h9, h10, h11, h12, h13, h14, h15, h16, h17⟩ :=
    C2_activity_log_per_transition
  refine ⟨?_, ?_, ?_, ?_, ?_, ?_, ?_, ?_, ?_, ?_, ?_, ?_, ?_, ?_, ?_, ?_, ?_⟩
  · exact h1 dbS 1 7 "defective" [⟨1, 1, 2, "d"⟩] "" [] 5 _ _ rfl
  · exact (h2 dbC5 1 "admin" true "" true true 86400 "20260101" _ _ _ rfl rfl).2
  · exact (h3 dbW 7 "UPS" "1Z1" "u" 5 _ _ rfl rfl).2
  · exact (h4 dbW 9 "w" 5 _ _ rfl rfl).2
  · exact (h5 dbW 10 "QA" _ _ rfl rfl).2
  · exact (h6 dbW 11 "DEFECTIVE" "" "QA" 5 _ _ rfl rfl).2
  · exact (h7 dbW 12 "REFUND" "" "wt" 5 _ _ rfl rfl).2
  · exact h8 dbW 13 100 "ORIGINAL_PAYMENT" "sys" _ _ rfl
  · exact h9 dbW 1 "r" "" 5 _ _ rfl rfl
  · exact h10 dbW 1 "r" "oops" 5 _ _ rfl rfl
  · exact (h11 dbW 7 "sys" "" 5 "20260101" _ _ rfl rfl).2 (by decide)
  · exact h12 dbW 6 "sys" 5 _ _ rfl
  · exact h13 dbW 2 500 "sys" 5 _ rfl
  · exact (h14 dbW 3 "sys" "" _ _ rfl rfl).2
  · exact h15 dbW 4 "sys" "" 5 _ rfl
  · exact h16 dbW 5 "sys" "" 5 _ rfl
  · exact (h17 dbW 7 "cust" "" 5 _ _ rfl rfl).2

/-- Witness for C6: a concrete approval on `dbC5` (whose RMA 1 is
SUBMITTED and unnumbered). -/
theorem C6_rma_number_discipline_witness :
    C6prop dbC5.rma_requests
      (okState (Op.apply (.validate 1 "admin" true "" true true 86400 "20260101") dbC5)
        dbC5).rma_requests :=
  C6_rma_number_discipline (.validate 1 "admin" true "" true true 86400 "20260101")
    dbC5 _ (by decide) rfl

end RMA

